import Mathlib

/-!
Verification development for the fleettracker repository.

The tracker (`services/tracker.js`), fusion fetcher (`services/dataFetcher.js`)
and OpenSky client (`services/opensky.js`) are shallowly embedded below.
JavaScript numbers appearing in telemetry records are modelled as exact
rationals (`ℚ`); the haversine distance, which the source computes with
`Math.sin`/`Math.cos`/`Math.atan2`/`Math.sqrt`, is modelled over `ℝ`.
JavaScript truthiness tests (`if (x)`, `x || null`, `x && y`) are modelled
exactly: `0`, `null`/`undefined`, `false` and the empty string are falsy.
The relational store is modelled as in-memory data inside `TrackerState`;
each `db.*` call of the source becomes a pure state transformation.
A thrown `TypeError` (member access on `undefined`) is modelled by the
`Bool` component of the result: `(s, true)` means the call threw after
having performed the mutations recorded in `s`.
-/

namespace FleetTracker

open Real

/-! ## JS truthiness helpers -/

/-- Truthiness of a nullable number: `null`/`undefined` and `0` are falsy. -/
def truthyQ : Option ℚ → Bool
  | none => false
  | some x => decide (x ≠ 0)

/-- Truthiness of a nullable boolean: `null`/`undefined` and `false` are falsy. -/
def truthyB : Option Bool → Bool
  | none => false
  | some b => b

/-- Truthiness of a nullable id (Postgres SERIAL): `undefined` and `0` are falsy. -/
def truthyN : Option ℕ → Bool
  | none => false
  | some k => decide (k ≠ 0)

/-- Truthiness of a nullable integer: `null`/`undefined` and `0` are falsy. -/
def truthyZ : Option ℤ → Bool
  | none => false
  | some z => decide (z ≠ 0)

/-- Truthiness of a nullable string: `null`/`undefined` and `""` are falsy. -/
def truthyS : Option String → Bool
  | none => false
  | some s => decide (s ≠ "")

/-- Models the JS guard `x && x > c` on a nullable number. -/
def qTruthyGT (x : Option ℚ) (c : ℚ) : Bool :=
  truthyQ x && decide (x.getD 0 > c)

/-- Models the JS guard `x !== null && x < c` on a nullable number. -/
def qKnownLT (x : Option ℚ) (c : ℚ) : Bool :=
  x.isSome && decide (x.getD 0 < c)

/-! ## Association lists (JS `Map` and keyed tables) -/

/-- `Map.get` / SQL lookup by key. -/
def alGet {α : Type} : List (String × α) → String → Option α
  | [], _ => none
  | p :: l, k => if p.1 == k then some p.2 else alGet l k

/-- `Map.set` / SQL upsert: replaces the value in place if the key exists,
appends otherwise (JS `Map.set` keeps the original insertion position;
`Map` keys are unique, so updating the first occurrence is exact). -/
def alSet {α : Type} : List (String × α) → String → α → List (String × α)
  | [], k, v => [(k, v)]
  | p :: l, k, v => if p.1 == k then (k, v) :: l else p :: alSet l k v

/-- `Map.delete`. -/
def alDelete {α : Type} : List (String × α) → String → List (String × α)
  | [], _ => []
  | p :: l, k => if p.1 == k then l else p :: alDelete l k

/-! ## Haversine distance, `calculateDistance` of tracker.js -/

/-- JS `Math.atan2(y, x)`. -/
noncomputable def atan2 (y x : ℝ) : ℝ :=
  if 0 < x then Real.arctan (y / x)
  else if x < 0 then
    (if 0 ≤ y then Real.arctan (y / x) + Real.pi
     else Real.arctan (y / x) - Real.pi)
  else
    (if 0 < y then Real.pi / 2 else if y < 0 then -(Real.pi / 2) else 0)

/-- `calculateDistance(lat1, lon1, lat2, lon2)`: haversine great-circle
distance in km on a mean Earth radius of 6371 km. -/
noncomputable def calculateDistance (lat1 lon1 lat2 lon2 : ℚ) : ℝ :=
  let R : ℝ := 6371
  let dLat : ℝ := ((lat2 : ℝ) - (lat1 : ℝ)) * Real.pi / 180
  let dLon : ℝ := ((lon2 : ℝ) - (lon1 : ℝ)) * Real.pi / 180
  let a : ℝ := Real.sin (dLat / 2) * Real.sin (dLat / 2) +
    Real.cos ((lat1 : ℝ) * Real.pi / 180) * Real.cos ((lat2 : ℝ) * Real.pi / 180) *
    Real.sin (dLon / 2) * Real.sin (dLon / 2)
  let c : ℝ := 2 * atan2 (Real.sqrt a) (Real.sqrt (1 - a))
  R * c

/-! ## Canonical state record (the normalized aircraft object) -/

/-- One normalized telemetry observation, as produced by the adapters and
consumed by `processAircraftState`.  `none` models JS `null`/`undefined`. -/
structure AircraftData where
  icao24 : String
  callsign : Option String := none
  originCountry : Option String := none
  timePosition : Option ℤ := none
  lastContact : ℤ := 0
  longitude : Option ℚ := none
  latitude : Option ℚ := none
  altitude : Option ℚ := none
  onGround : Option Bool := none
  velocity : Option ℚ := none
  heading : Option ℚ := none
  verticalRate : Option ℚ := none
  geoAltitude : Option ℚ := none
  squawk : Option String := none
  category : Option String := none
  source : Option String := none
  deriving DecidableEq

/-! ## Store rows (database/db.js tables) -/

/-- One row of the `current_state` table; `on_ground` is stored as the
integer `onGround ? 1 : 0` (so an unknown flag is stored as `0`). -/
structure CurrentState where
  timestamp : ℤ
  latitude : Option ℚ
  longitude : Option ℚ
  altitude : Option ℚ
  velocity : Option ℚ
  heading : Option ℚ
  on_ground : ℤ
  deriving DecidableEq

/-- One row of the append-only `positions` table. -/
structure PositionRow where
  icao24 : String
  timestamp : ℤ
  latitude : Option ℚ
  longitude : Option ℚ
  altitude : Option ℚ
  velocity : Option ℚ
  heading : Option ℚ
  vertical_rate : Option ℚ
  on_ground : ℤ
  deriving DecidableEq

/-- One row of the `flights` table. -/
structure Flight where
  id : ℕ
  icao24 : String
  takeoff_time : ℤ
  takeoff_latitude : Option ℚ
  takeoff_longitude : Option ℚ
  max_altitude : Option ℚ
  landing_time : Option ℤ := none
  landing_latitude : Option ℚ := none
  landing_longitude : Option ℚ := none
  distance_km : Option ℝ := none
  duration_seconds : Option ℤ := none

/-- The store plus the tracker's in-memory `activeFlights` map and a count
of landings logged as unmatched (`No active flight found ... landing`). -/
structure TrackerState where
  flights : List Flight := []
  nextId : ℕ := 1
  currentState : List (String × CurrentState) := []
  positions : List PositionRow := []
  activeFlights : List (String × ℕ) := []
  unmatchedLandings : ℕ := 0

/-- The empty store (fresh database, Postgres SERIAL ids start at 1). -/
def initialState : TrackerState := {}

/-! ## Store operations used by the tracker -/

/-- The open (`landing_time IS NULL`) flights rows for a vehicle, in
insertion order. -/
def openFlights (s : TrackerState) (v : String) : List Flight :=
  s.flights.filter (fun f => f.icao24 == v && f.landing_time.isNone)

/-- `ORDER BY takeoff_time DESC LIMIT 1` as a fold: keeps the row with
the greatest takeoff time; ties — whose order SQL leaves unspecified —
are resolved in favour of the most recently inserted row. -/
def pickLatest (acc : Option Flight) (f : Flight) : Option Flight :=
  match acc with
  | none => some f
  | some g => if g.takeoff_time ≤ f.takeoff_time then some f else some g

/-- `db.getActiveFlight`: the open flight for a vehicle with the
greatest `takeoff_time`. -/
def getActiveFlight (s : TrackerState) (v : String) : Option Flight :=
  (openFlights s v).foldl pickLatest none

/-- `db.createFlight`: inserts a row with the takeoff data, `max_altitude`
initialized to the takeoff altitude, and returns the fresh id. -/
def createFlight (s : TrackerState) (v : String) (t : ℤ)
    (lat lon alt : Option ℚ) : ℕ × TrackerState :=
  (s.nextId,
   { s with
     flights := s.flights ++
       [{ id := s.nextId, icao24 := v, takeoff_time := t,
          takeoff_latitude := lat, takeoff_longitude := lon,
          max_altitude := alt }],
     nextId := s.nextId + 1 })

/-- The dynamic `updates` object passed to `db.updateFlight`; `none`
means the field is absent from the object. -/
structure FlightUpdate where
  landingTime : Option ℤ := none
  landingLatitude : Option ℚ := none
  landingLongitude : Option ℚ := none
  maxAltitude : Option ℚ := none
  distanceKm : Option ℝ := none
  durationSeconds : Option ℤ := none

/-- Applies the present fields of an update object to one flights row. -/
def applyUpdate (f : Flight) (u : FlightUpdate) : Flight :=
  { f with
    landing_time := match u.landingTime with
      | some t => some t
      | none => f.landing_time,
    landing_latitude := match u.landingLatitude with
      | some q => some q
      | none => f.landing_latitude,
    landing_longitude := match u.landingLongitude with
      | some q => some q
      | none => f.landing_longitude,
    max_altitude := match u.maxAltitude with
      | some q => some q
      | none => f.max_altitude,
    distance_km := match u.distanceKm with
      | some d => some d
      | none => f.distance_km,
    duration_seconds := match u.durationSeconds with
      | some d => some d
      | none => f.duration_seconds }

/-- `db.updateFlight`: updates the row with the given id. -/
def updateFlight (s : TrackerState) (fid : ℕ) (u : FlightUpdate) :
    TrackerState :=
  { s with flights := s.flights.map (fun f => if f.id = fid then applyUpdate f u else f) }

/-- The `positions` row written by `db.savePosition` for an observation. -/
def posRowOf (n : AircraftData) : PositionRow :=
  { icao24 := n.icao24, timestamp := n.lastContact,
    latitude := n.latitude, longitude := n.longitude,
    altitude := n.altitude, velocity := n.velocity, heading := n.heading,
    vertical_rate := n.verticalRate,
    on_ground := if truthyB n.onGround then 1 else 0 }

/-- The `current_state` row written by `db.updateCurrentState`. -/
def csRowOf (n : AircraftData) : CurrentState :=
  { timestamp := n.lastContact,
    latitude := n.latitude, longitude := n.longitude,
    altitude := n.altitude, velocity := n.velocity, heading := n.heading,
    on_ground := if truthyB n.onGround then 1 else 0 }

/-! ## The flight state machine (tracker.js) -/

inductive StateEvent
  | takeoff
  | landing
  deriving DecidableEq

/-- `detectStateChange(newState, previousState)`. -/
def detectStateChange (n : AircraftData) (p : CurrentState) :
    Option StateEvent :=
  let wasOnGround : Bool := decide (p.on_ground = 1)
  let isOnGround : Bool := decide (n.onGround = some true)
  if n.onGround = none then none
  else if wasOnGround && !isOnGround && qTruthyGT n.altitude 50 &&
      qTruthyGT n.velocity 15 then some .takeoff
  else if !wasOnGround && isOnGround && qKnownLT n.velocity 5 then
    some .landing
  else none

/-- The flight-id resolution block at the top of the landing branch of
`handleStateChange`: the in-memory map first, then the store (without
caching the store hit back into the map). -/
def landingFlightId (v : String) (s : TrackerState) : Option ℕ :=
  if truthyN (alGet s.activeFlights v) then alGet s.activeFlights v
  else
    match getActiveFlight s v with
    | some f => some f.id
    | none => alGet s.activeFlights v

/-- `handleStateChange(icao24, eventType, newState, previousState)`.
The result's `Bool` is `true` when the call throws the `TypeError` of
reading `flight.takeoff_time` off `undefined` (active-flight id in the
in-memory map but no open flight in the store). -/
noncomputable def handleStateChange (v : String) (ev : StateEvent)
    (n : AircraftData) (p : CurrentState) (s : TrackerState) :
    TrackerState × Bool :=
  match ev with
  | .takeoff =>
      let r := createFlight s v n.lastContact n.latitude n.longitude n.altitude
      ({ r.2 with activeFlights := alSet r.2.activeFlights v r.1 }, false)
  | .landing =>
      if truthyN (landingFlightId v s) then
        match getActiveFlight s v with
        | none => (s, true)
        | some fl =>
            let durationSeconds := n.lastContact - fl.takeoff_time
            let seg : ℝ :=
              if truthyQ p.latitude && truthyQ p.longitude then
                calculateDistance (p.latitude.getD 0) (p.longitude.getD 0)
                  (n.latitude.getD 0) (n.longitude.getD 0)
              else 0
            let totalDistance : ℝ := (fl.distance_km.getD 0) + seg
            let s1 := updateFlight s ((landingFlightId v s).getD 0)
              { landingTime := some n.lastContact,
                landingLatitude := n.latitude,
                landingLongitude := n.longitude,
                distanceKm := some totalDistance,
                durationSeconds := some durationSeconds }
            ({ s1 with activeFlights := alDelete s1.activeFlights v }, false)
      else
        ({ s with unmatchedLandings := s.unmatchedLandings + 1 }, false)

/-- The active-flight-id resolution block at the top of
`updateOngoingFlight`: the in-memory map first, then the store, caching a
store hit back into the map. -/
def resolveActiveFlightId (v : String) (s : TrackerState) :
    Option ℕ × TrackerState :=
  if truthyN (alGet s.activeFlights v) then (alGet s.activeFlights v, s)
  else
    match getActiveFlight s v with
    | some f => (some f.id, { s with activeFlights := alSet s.activeFlights v f.id })
    | none => (alGet s.activeFlights v, s)

/-- `updateOngoingFlight(icao24, newState, previousState)`.  The `Bool`
is `true` when the call throws the `TypeError` of reading
`flight.max_altitude` off `undefined`. -/
noncomputable def updateOngoingFlight (v : String) (n : AircraftData)
    (p : CurrentState) (s : TrackerState) : TrackerState × Bool :=
  let r := resolveActiveFlightId v s
  let fid := r.1
  let s0 := r.2
  if truthyN fid && !truthyB n.onGround then
    match getActiveFlight s0 v with
    | none => (s0, true)
    | some fl =>
        let u1 : FlightUpdate :=
          if truthyQ n.altitude &&
              (!truthyQ fl.max_altitude ||
                decide (n.altitude.getD 0 > fl.max_altitude.getD 0)) then
            { maxAltitude := n.altitude }
          else {}
        let u2 : FlightUpdate :=
          if truthyQ p.latitude && truthyQ p.longitude &&
              truthyQ n.latitude && truthyQ n.longitude then
            { u1 with
              distanceKm := some ((fl.distance_km.getD 0) +
                calculateDistance (p.latitude.getD 0) (p.longitude.getD 0)
                  (n.latitude.getD 0) (n.longitude.getD 0)) }
          else u1
        (updateFlight s0 (fid.getD 0) u2, false)
  else
    (s0, false)

/-- `processAircraftState(aircraftData)`: the per-record entry point of
the flight state machine. -/
noncomputable def processAircraftState (n : AircraftData) (s : TrackerState) :
    TrackerState × Bool :=
  if n.latitude = none ∨ n.longitude = none then (s, false)
  else
    let prev := alGet s.currentState n.icao24
    let s1 := { s with positions := s.positions ++ [posRowOf n] }
    let s2 := { s1 with currentState := alSet s1.currentState n.icao24 (csRowOf n) }
    match prev with
    | some p =>
        match detectStateChange n p with
        | some ev => handleStateChange n.icao24 ev n p s2
        | none => updateOngoingFlight n.icao24 n p s2
    | none =>
        if !truthyB n.onGround && qTruthyGT n.altitude 50 &&
            qTruthyGT n.velocity 15 then
          let r := createFlight s2 n.icao24 n.lastContact n.latitude n.longitude n.altitude
          ({ r.2 with activeFlights := alSet r.2.activeFlights n.icao24 r.1 }, false)
        else (s2, false)

/-! ## Source adapters (dataFetcher.js) -/

/-- JS `x || null` on a nullable number: `0` is coerced to `null`. -/
def orNullQ (x : Option ℚ) : Option ℚ :=
  if truthyQ x then x else none

/-- JS `x || null` on a nullable string: `""` is coerced to `null`. -/
def orNullS (x : Option String) : Option String :=
  if truthyS x then x else none

/-- The `alt_baro`-style fields of readsb-family JSON: a number, the
string sentinel `"ground"`, or absent. -/
inductive AltBaro
  | ground
  | num (v : ℚ)
  | absent
  deriving DecidableEq

/-- The raw dump1090-fa aircraft JSON fields read by the adapter
(altitude in feet, speed in knots, vertical rate in feet/min). -/
structure RawDump1090 where
  hex : String
  flight : Option String := none
  altitude : Option ℚ := none
  speed : Option ℚ := none
  alt_baro : AltBaro := .absent
  lat : Option ℚ := none
  lon : Option ℚ := none
  track : Option ℚ := none
  vert_rate : Option ℚ := none
  squawk : Option String := none
  category : Option String := none
  deriving DecidableEq

def srcDump1090 : String := "dump1090-fa"

def srcAdsbLol : String := "adsb.lol"

/-- `parseDump1090Aircraft(aircraft, timestamp)`; `nowSec` models
`Math.floor(Date.now() / 1000)`. -/
def parseDump1090Aircraft (ac : RawDump1090) (ts : Option ℤ) (nowSec : ℤ) :
    AircraftData :=
  let altitudeMeters : Option ℚ := ac.altitude.map (· * 0.3048)
  let velocityMs : Option ℚ := ac.speed.map (· * 0.514444)
  let onGround0 : Bool := decide (ac.alt_baro = .ground)
  let onGround : Bool :=
    if !onGround0 && altitudeMeters.isSome &&
        decide (altitudeMeters.getD 0 < 50) && velocityMs.isSome &&
        decide (velocityMs.getD 0 < 15) then true
    else onGround0
  let tsVal : ℤ := if truthyZ ts then ts.getD 0 else nowSec
  { icao24 := ac.hex.toLower,
    callsign := match ac.flight with
      | some cs => if cs = "" then none else some cs.trim
      | none => none,
    originCountry := none,
    timePosition := some tsVal,
    lastContact := tsVal,
    longitude := orNullQ ac.lon,
    latitude := orNullQ ac.lat,
    altitude := altitudeMeters,
    onGround := some onGround,
    velocity := velocityMs,
    heading := orNullQ ac.track,
    verticalRate := ac.vert_rate.map (· * 0.00508),
    geoAltitude := none,
    squawk := orNullS ac.squawk,
    category := orNullS ac.category,
    source := some srcDump1090 }

/-- The raw adsb.lol aircraft JSON fields read by the adapter. -/
structure RawAdsbLol where
  hex : String
  flight : Option String := none
  flag : Option String := none
  alt_baro : AltBaro := .absent
  gs : Option ℚ := none
  lat : Option ℚ := none
  lon : Option ℚ := none
  track : Option ℚ := none
  baro_rate : Option ℚ := none
  alt_geom : AltBaro := .absent
  squawk : Option String := none
  category : Option String := none
  seen_pos : Option ℤ := none
  deriving DecidableEq

/-- `parseAdsbLolAircraft(data)`; `nowSec` models
`Math.floor(Date.now() / 1000)`. -/
def parseAdsbLolAircraft (ac : RawAdsbLol) (nowSec : ℤ) : AircraftData :=
  let altitudeMeters : Option ℚ :=
    match ac.alt_baro with
    | .num v => some (v * 0.3048)
    | _ => none
  let velocityMs : Option ℚ := ac.gs.map (· * 0.514444)
  let onGround0 : Bool := decide (ac.alt_baro = .ground)
  let onGround : Bool :=
    if !onGround0 && altitudeMeters.isSome &&
        decide (altitudeMeters.getD 0 < 50) && velocityMs.isSome &&
        decide (velocityMs.getD 0 < 15) then true
    else onGround0
  let timestamp : ℤ :=
    match ac.seen_pos with
    | some sp => nowSec - sp
    | none => nowSec
  { icao24 := ac.hex.toLower,
    callsign := match ac.flight with
      | some cs => if cs = "" then none else some cs.trim
      | none => none,
    originCountry := orNullS ac.flag,
    timePosition := some timestamp,
    lastContact := timestamp,
    longitude := orNullQ ac.lon,
    latitude := orNullQ ac.lat,
    altitude := altitudeMeters,
    onGround := some onGround,
    velocity := velocityMs,
    heading := orNullQ ac.track,
    verticalRate := ac.baro_rate.map (· * 0.00508),
    geoAltitude := match ac.alt_geom with
      | .num v => some (v * 0.3048)
      | _ => none,
    squawk := orNullS ac.squawk,
    category := orNullS ac.category,
    source := some srcAdsbLol }

/-! ## OpenSky client (opensky.js) -/

structure OAuthCredentials where
  clientId : String
  clientSecret : String
  deriving DecidableEq

/-- The mutable fields of `OpenSkyClient`. -/
structure OskyClientState where
  credentials : Option OAuthCredentials := none
  accessToken : Option String := none
  tokenExpiry : Option ℤ := none
  deriving DecidableEq

/-- JS `this.accessToken && this.tokenExpiry && Date.now() < this.tokenExpiry`. -/
def cachedTokenValid (st : OskyClientState) (nowMs : ℤ) : Bool :=
  truthyS st.accessToken && truthyZ st.tokenExpiry &&
    decide (nowMs < st.tokenExpiry.getD 0)

/-- Negation of JS
`!this.credentials || !this.credentials.clientId || !this.credentials.clientSecret`. -/
def credsUsable : Option OAuthCredentials → Bool
  | none => false
  | some c => decide (c.clientId ≠ "") && decide (c.clientSecret ≠ "")

/-- `response.ok`: HTTP status in the 2xx range. -/
def statusOk (st : ℤ) : Bool :=
  decide (200 ≤ st) && decide (st < 300)

/-- The token endpoint's successful JSON body together with its status. -/
structure TokenResp where
  status : ℤ
  access_token : String
  expires_in : ℤ
  deriving DecidableEq

/-- `getAccessToken()`.  `nowMs` models `Date.now()`; `resp` is the token
endpoint's response (`Except.error` models a network throw).  Returns the
token handed to the caller, the client state afterwards, and whether a
token request went out on the network. -/
def getAccessToken (nowMs : ℤ) (resp : Except String TokenResp)
    (st : OskyClientState) : Option String × OskyClientState × Bool :=
  if cachedTokenValid st nowMs then (st.accessToken, st, false)
  else if !credsUsable st.credentials then (none, st, false)
  else
    match resp with
    | .error _ => (none, st, true)
    | .ok d =>
        if !statusOk d.status then (none, st, true)
        else
          (some d.access_token,
           { st with
             accessToken := some d.access_token,
             tokenExpiry := some (nowMs + (d.expires_in - 300) * 1000) },
           true)

/-- The error descriptors returned by `fetchFleetStates`. -/
inductive ErrDesc
  | rate_limit (retryAfter : Option ℤ)
  | api_error (status : ℤ)
  | network_error (message : String)
  deriving DecidableEq

/-- The `/states/all` HTTP response: status, the
`X-Rate-Limit-Retry-After-Seconds` header, and the parsed JSON body
(`states` is `none` when the body's `states` is `null`; its vectors are
modelled as already-parsed records, `parseStateVector` being a
field-by-field renaming of the 18-element vector). -/
structure OskyHttp where
  status : ℤ
  retryAfterHeader : Option ℤ := none
  time : Option ℤ := none
  states : Option (List AircraftData) := none
  deriving DecidableEq

/-- The result of `fetchFleetStates` (the per-call part after token
acquisition): either a time/aircraft pair or an error descriptor. -/
structure OpenSkyResult where
  time : Option ℤ := none
  aircraft : Option (List AircraftData) := none
  error : Option ErrDesc := none
  deriving DecidableEq

/-- `fetchFleetStates(icao24Array)`, as a function of the HTTP response it
gets (`Except.error` models a thrown network error caught by the
`try`/`catch`). -/
def fetchFleetStates (resp : Except String OskyHttp) : OpenSkyResult :=
  match resp with
  | .error msg => { error := some (.network_error msg) }
  | .ok h =>
      if h.status = 429 then
        { error := some (.rate_limit h.retryAfterHeader) }
      else if !statusOk h.status then
        { error := some (.api_error h.status) }
      else
        match h.states with
        | none => { time := h.time, aircraft := some [] }
        | some sts => { time := h.time, aircraft := some sts }

/-! ## Fusion fetcher (dataFetcher.js, fetchFleetData) -/

structure SourceCounts where
  localSrc : ℕ := 0
  adsbLol : ℕ := 0
  opensky : ℕ := 0
  deriving DecidableEq

structure FleetResult where
  aircraft : List AircraftData
  sources : SourceCounts
  error : Option ErrDesc := none
  deriving DecidableEq

structure FusionConfig where
  dump1090Enabled : Bool
  adsbLolEnabled : Bool
  deriving DecidableEq

/-- The `results` map of `fetchFleetData`, keyed by icao24, in insertion
order. -/
abbrev ResultsMap := List (String × AircraftData)

/-- One iteration of the splicing merge loop: store the record under its
identifier, bump the source's counter, and remove the first occurrence of
the identifier from the `missingAircraft` working list. -/
def mergeSplice (st : ResultsMap × ℕ × List String) (ac : AircraftData) :
    ResultsMap × ℕ × List String :=
  (alSet st.1 ac.icao24 ac, st.2.1 + 1, st.2.2.erase ac.icao24)

def runSplice (st : ResultsMap × ℕ × List String)
    (acs : List AircraftData) : ResultsMap × ℕ × List String :=
  acs.foldl mergeSplice st

/-- The OpenSky merge loop: like `mergeSplice` but the code never removes
resolved identifiers from the working list (it is the last source). -/
def mergeNoSplice (st : ResultsMap × ℕ) (ac : AircraftData) :
    ResultsMap × ℕ :=
  (alSet st.1 ac.icao24 ac, st.2 + 1)

def runNoSplice (st : ResultsMap × ℕ) (acs : List AircraftData) :
    ResultsMap × ℕ :=
  acs.foldl mergeNoSplice st

/-- The local dump1090-fa phase: merges the local receiver's (already
fleet-filtered, parsed) records when the source is enabled and returned a
non-empty list. -/
def fusionPhaseLocal (cfg : FusionConfig) (localResp : List AircraftData)
    (icao24Array : List String) : ResultsMap × ℕ × List String :=
  if cfg.dump1090Enabled && !localResp.isEmpty then
    runSplice ([], 0, icao24Array) localResp
  else ([], 0, icao24Array)

/-- The adsb.lol phase: queried with the still-missing identifiers when
that list is non-empty and the source is enabled. -/
def fusionPhase2 (cfg : FusionConfig)
    (adsbFetch : List String → List AircraftData) (results : ResultsMap)
    (missing : List String) : ResultsMap × ℕ × List String :=
  if !missing.isEmpty && cfg.adsbLolEnabled then
    let acs := adsbFetch missing
    if !acs.isEmpty then runSplice (results, 0, missing) acs
    else (results, 0, missing)
  else (results, 0, missing)

/-- The OpenSky merge step applied to a fetch result's aircraft list. -/
def fusionPhase3 (results : ResultsMap) (osr : OpenSkyResult) :
    ResultsMap × ℕ :=
  match osr.aircraft with
  | some acs => if !acs.isEmpty then runNoSplice (results, 0) acs else (results, 0)
  | none => (results, 0)

/-- `fetchFleetData(icao24Array)`: priority fusion across the three
sources.  `localResp` is what `fetchFromDump1090` returned, `adsbFetch`
and `openskyFetch` are the remaining sources as functions of the
identifier list they are queried with. -/
def fetchFleetData (cfg : FusionConfig) (localResp : List AircraftData)
    (adsbFetch : List String → List AircraftData)
    (openskyFetch : List String → OpenSkyResult)
    (icao24Array : List String) : FleetResult :=
  let p1 := fusionPhaseLocal cfg localResp icao24Array
  let p2 := fusionPhase2 cfg adsbFetch p1.1 p1.2.2
  if p2.2.2.isEmpty then
    { aircraft := p2.1.map (·.2), sources := ⟨p1.2.1, p2.2.1, 0⟩ }
  else
    let osr := openskyFetch p2.2.2
    let p3 := fusionPhase3 p2.1 osr
    match osr.error with
    | some e =>
        { aircraft := p3.1.map (·.2), sources := ⟨p1.2.1, p2.2.1, p3.2⟩,
          error := some e }
    | none =>
        { aircraft := p3.1.map (·.2), sources := ⟨p1.2.1, p2.2.1, p3.2⟩ }

/-! ## Haversine facts -/

theorem atan2_of_pos {y x : ℝ} (hx : 0 < x) : atan2 y x = Real.arctan (y / x) := by
  unfold atan2
  rw [if_pos hx]

theorem calculateDistance_unfold (lat1 lon1 lat2 lon2 : ℚ) :
    calculateDistance lat1 lon1 lat2 lon2 =
      6371 * (2 * atan2
        (Real.sqrt
          (Real.sin (((lat2 : ℝ) - (lat1 : ℝ)) * Real.pi / 180 / 2) *
              Real.sin (((lat2 : ℝ) - (lat1 : ℝ)) * Real.pi / 180 / 2) +
            Real.cos ((lat1 : ℝ) * Real.pi / 180) *
                Real.cos ((lat2 : ℝ) * Real.pi / 180) *
                Real.sin (((lon2 : ℝ) - (lon1 : ℝ)) * Real.pi / 180 / 2) *
              Real.sin (((lon2 : ℝ) - (lon1 : ℝ)) * Real.pi / 180 / 2)))
        (Real.sqrt
          (1 -
            (Real.sin (((lat2 : ℝ) - (lat1 : ℝ)) * Real.pi / 180 / 2) *
                Real.sin (((lat2 : ℝ) - (lat1 : ℝ)) * Real.pi / 180 / 2) +
              Real.cos ((lat1 : ℝ) * Real.pi / 180) *
                  Real.cos ((lat2 : ℝ) * Real.pi / 180) *
                  Real.sin (((lon2 : ℝ) - (lon1 : ℝ)) * Real.pi / 180 / 2) *
                Real.sin (((lon2 : ℝ) - (lon1 : ℝ)) * Real.pi / 180 / 2))))) :=
  rfl

/-- Feeding the same point twice gives a zero-length haversine segment. -/
theorem calculateDistance_self (la lo : ℚ) : calculateDistance la lo la lo = 0 := by
  rw [calculateDistance_unfold]
  simp only [sub_self, zero_mul, zero_div, Real.sin_zero, mul_zero, zero_add,
    add_zero, Real.sqrt_zero, sub_zero, Real.sqrt_one]
  rw [atan2_of_pos one_pos]
  simp [Real.arctan_zero]

/-- The haversine distance from `(47, 8)` to `(47.45, 8)` in closed form:
same longitude, latitude difference `0.45°`, giving `6371·π/400` km. -/
theorem calculateDistance_hop :
    calculateDistance 47 8 47.45 8 = 6371 * Real.pi / 400 := by
  have hθ0 : (0 : ℝ) < Real.pi / 800 := by positivity
  have hθπ : Real.pi / 800 ≤ Real.pi := by nlinarith [Real.pi_pos]
  have hθhalf : Real.pi / 800 < Real.pi / 2 := by nlinarith [Real.pi_pos]
  have hθneg : -(Real.pi / 2) < Real.pi / 800 := by nlinarith [Real.pi_pos]
  have hsin : (0 : ℝ) ≤ Real.sin (Real.pi / 800) :=
    Real.sin_nonneg_of_nonneg_of_le_pi (le_of_lt hθ0) hθπ
  have hcos : (0 : ℝ) < Real.cos (Real.pi / 800) :=
    Real.cos_pos_of_mem_Ioo ⟨hθneg, hθhalf⟩
  rw [calculateDistance_unfold]
  have hD : (((47.45 : ℚ) : ℝ) - ((47 : ℚ) : ℝ)) * Real.pi / 180 / 2 =
      Real.pi / 800 := by
    push_cast
    ring_nf
  have hE : (((8 : ℚ) : ℝ) - ((8 : ℚ) : ℝ)) * Real.pi / 180 / 2 = 0 := by
    norm_num
  rw [hD, hE]
  simp only [Real.sin_zero, mul_zero, add_zero]
  rw [Real.sqrt_mul_self hsin]
  have h1ms : 1 - Real.sin (Real.pi / 800) * Real.sin (Real.pi / 800) =
      Real.cos (Real.pi / 800) * Real.cos (Real.pi / 800) := by
    have h := Real.sin_sq_add_cos_sq (Real.pi / 800)
    rw [pow_two, pow_two] at h
    linarith
  rw [h1ms, Real.sqrt_mul_self hcos.le]
  rw [atan2_of_pos hcos, ← Real.tan_eq_sin_div_cos,
    Real.arctan_tan hθneg hθhalf]
  ring

/-! ## C1: takeoff → landing round trip -/

def c1Icao : String := "a93270"

/-- First record of the round trip: on the ground at `(47, 8)`. -/
def c1Rec1 : AircraftData :=
  { icao24 := c1Icao, lastContact := 1000, longitude := some 8,
    latitude := some 47, altitude := some 0, onGround := some true,
    velocity := some 0 }

/-- Second record: airborne at `(47, 8)`, altitude 100 m, speed 20 m/s. -/
def c1Rec2 : AircraftData :=
  { icao24 := c1Icao, lastContact := 1600, longitude := some 8,
    latitude := some 47, altitude := some 100, onGround := some false,
    velocity := some 20 }

/-- Third record, 600 s later: back on the ground at `(47.45, 8)` —
about 50 km north — altitude 5 m, speed 2 m/s. -/
def c1Rec3 : AircraftData :=
  { icao24 := c1Icao, lastContact := 2200, longitude := some 8,
    latitude := some 47.45, altitude := some 5, onGround := some true,
    velocity := some 2 }

/-- The store after feeding the three records, starting from no prior
persisted state. -/
noncomputable def c1Final : TrackerState :=
  (processAircraftState c1Rec3
    (processAircraftState c1Rec2
      (processAircraftState c1Rec1 initialState).1).1).1

/-- C1: for one vehicle with no prior persisted state, feeding the three
records `{onGround:true, alt:0, speed:0}`, `{onGround:false, alt:100,
speed:20}`, `{onGround:true, alt:5, speed:2}`, the second and third 600 s
apart at positions `(47,8)` and `(47.45,8)` (≈50 km apart), produces
exactly one closed FlightRecord whose duration is the landing timestamp
minus the takeoff timestamp (600 s) and whose accumulated distance is the
haversine great-circle distance between the two positions, which lies
strictly between 49 and 51 km. -/
theorem c1_takeoff_landing_roundtrip :
    ∃ f : Flight,
      c1Final.flights = [f] ∧
      f.takeoff_time = 1600 ∧ f.landing_time = some 2200 ∧
      f.duration_seconds = some (2200 - 1600) ∧
      f.duration_seconds = some 600 ∧
      f.distance_km = some (calculateDistance 47 8 47.45 8) ∧
      49 < calculateDistance 47 8 47.45 8 ∧
      calculateDistance 47 8 47.45 8 < 51 := by
  refine ⟨{ id := 1, icao24 := c1Icao, takeoff_time := 1600,
            takeoff_latitude := some 47, takeoff_longitude := some 8,
            max_altitude := some 100, landing_time := some 2200,
            landing_latitude := some 47.45, landing_longitude := some 8,
            distance_km := some ((0 : ℝ) + calculateDistance 47 8 47.45 8),
            duration_seconds := some 600 }, ?_, rfl, rfl, rfl, rfl, ?_, ?_, ?_⟩
  · rfl
  · simp [zero_add]
  · rw [calculateDistance_hop]
    nlinarith [Real.pi_gt_d2]
  · rw [calculateDistance_hop]
    nlinarith [Real.pi_lt_d2]

/-! ## Association list lemmas -/

theorem alGet_alSet_self {α : Type} (l : List (String × α)) (k : String)
    (v : α) : alGet (alSet l k v) k = some v := by
  induction l with
  | nil => simp [alGet, alSet]
  | cons p l ih =>
      by_cases h : p.1 == k
      · simp [alSet, h, alGet]
      · simp [alSet, h, alGet, ih]

theorem alGet_alSet_ne {α : Type} (l : List (String × α)) (k k' : String)
    (v : α) (hne : k' ≠ k) : alGet (alSet l k v) k' = alGet l k' := by
  have hkk : k ≠ k' := fun h => hne h.symm
  induction l with
  | nil => simp [alGet, alSet, hkk]
  | cons p l ih =>
      by_cases h : p.1 = k
      · have hpk : p.1 ≠ k' := by rw [h]; exact hkk
        simp [alSet, alGet, h, hkk, hpk]
      · by_cases h2 : p.1 = k'
        · simp [alSet, alGet, h, h2, hne]
        · simp [alSet, alGet, h, h2, ih]

/-! ## Preservation lemmas for the state machine -/

theorem applyUpdate_id (f : Flight) (u : FlightUpdate) :
    (applyUpdate f u).id = f.id := rfl

theorem applyUpdate_landing_time (f : Flight) (u : FlightUpdate)
    (h : u.landingTime = none) :
    (applyUpdate f u).landing_time = f.landing_time := by
  simp [applyUpdate, h]

theorem updateFlight_map_proj {β : Type} (proj : Flight → β)
    (s : TrackerState) (fid : ℕ) (u : FlightUpdate)
    (h : ∀ f, proj (applyUpdate f u) = proj f) :
    ((updateFlight s fid u).flights).map proj = s.flights.map proj := by
  unfold updateFlight
  dsimp only
  rw [List.map_map]
  refine List.map_congr_left ?_
  intro f _
  by_cases hf : f.id = fid
  · simp [Function.comp, hf, h f]
  · simp [Function.comp, hf]

theorem resolveActiveFlightId_snd (v : String) (s : TrackerState) :
    ((resolveActiveFlightId v s).2).flights = s.flights ∧
    ((resolveActiveFlightId v s).2).nextId = s.nextId ∧
    ((resolveActiveFlightId v s).2).positions = s.positions ∧
    ((resolveActiveFlightId v s).2).currentState = s.currentState ∧
    ((resolveActiveFlightId v s).2).unmatchedLandings = s.unmatchedLandings := by
  unfold resolveActiveFlightId
  split
  · exact ⟨rfl, rfl, rfl, rfl, rfl⟩
  · split <;> exact ⟨rfl, rfl, rfl, rfl, rfl⟩

theorem updateOngoingFlight_pres (v : String) (n : AircraftData)
    (p : CurrentState) (s : TrackerState) :
    ((updateOngoingFlight v n p s).1).nextId = s.nextId ∧
    ((updateOngoingFlight v n p s).1).positions = s.positions ∧
    ((updateOngoingFlight v n p s).1).currentState = s.currentState ∧
    ((updateOngoingFlight v n p s).1).unmatchedLandings = s.unmatchedLandings ∧
    ((updateOngoingFlight v n p s).1).flights.map
        (fun f => (f.id, f.landing_time)) =
      s.flights.map (fun f => (f.id, f.landing_time)) := by
  obtain ⟨hfl, hni, hpo, hcs, hum⟩ := resolveActiveFlightId_snd v s
  simp only [updateOngoingFlight]
  split
  · split
    · exact ⟨hni, hpo, hcs, hum, by rw [hfl]⟩
    · refine ⟨hni, hpo, hcs, hum, ?_⟩
      rw [updateFlight_map_proj]
      · rw [hfl]
      · intro f
        rw [Prod.mk.injEq]
        refine ⟨applyUpdate_id f _, applyUpdate_landing_time f _ ?_⟩
        split <;> split <;> rfl
  · exact ⟨hni, hpo, hcs, hum, by rw [hfl]⟩

theorem handleStateChange_pres_pos_cs (v : String) (ev : StateEvent)
    (n : AircraftData) (p : CurrentState) (s : TrackerState) :
    ((handleStateChange v ev n p s).1).positions = s.positions ∧
    ((handleStateChange v ev n p s).1).currentState = s.currentState := by
  cases ev
  · exact ⟨rfl, rfl⟩
  · simp only [handleStateChange]
    split
    · split
      · exact ⟨rfl, rfl⟩
      · exact ⟨rfl, rfl⟩
    · exact ⟨rfl, rfl⟩

/-! ## C4 (amended): the position gate -/

/-- C4 as amended: a record missing latitude **or** longitude is rejected
outright (no position-history write, no state upsert, no state
comparison, no throw); a record with both coordinates present always
gets a position-history append and a last-known-state upsert, whatever
else happens. -/
theorem c4_position_gate (n : AircraftData) (s : TrackerState) :
    ((n.latitude = none ∨ n.longitude = none) →
      processAircraftState n s = (s, false)) ∧
    (n.latitude ≠ none → n.longitude ≠ none →
      ((processAircraftState n s).1).positions =
          s.positions ++ [posRowOf n] ∧
      alGet ((processAircraftState n s).1).currentState n.icao24 =
          some (csRowOf n)) := by
  constructor
  · intro h
    simp only [processAircraftState, if_pos h]
  · intro hla hlo
    have hgate : ¬(n.latitude = none ∨ n.longitude = none) := by
      rintro (h | h)
      · exact hla h
      · exact hlo h
    simp only [processAircraftState, if_neg hgate]
    cases hprev : alGet s.currentState n.icao24 with
    | some p =>
        dsimp only
        cases hdet : detectStateChange n p with
        | some ev =>
            dsimp only
            obtain ⟨h1, h2⟩ := handleStateChange_pres_pos_cs n.icao24 ev n p
              { s with
                positions := s.positions ++ [posRowOf n],
                currentState := alSet s.currentState n.icao24 (csRowOf n) }
            exact ⟨h1, by rw [h2, alGet_alSet_self]⟩
        | none =>
            dsimp only
            obtain ⟨_, h1, h2, _, _⟩ := updateOngoingFlight_pres n.icao24 n p
              { s with
                positions := s.positions ++ [posRowOf n],
                currentState := alSet s.currentState n.icao24 (csRowOf n) }
            exact ⟨h1, by rw [h2, alGet_alSet_self]⟩
    | none =>
        dsimp only
        split
        · exact ⟨rfl, alGet_alSet_self _ _ _⟩
        · exact ⟨rfl, alGet_alSet_self _ _ _⟩

def c4Icao : String := "a939de"

/-- A record where only latitude is unknown (longitude present). -/
def c4Rec : AircraftData :=
  { icao24 := c4Icao, lastContact := 1000, longitude := some 8,
    latitude := none, altitude := some 100, onGround := some false,
    velocity := some 20 }

/-- C4 counterexample: a record missing only its latitude — which the
claim says must get a position-history write and a last-known-state
upsert — is rejected outright by the code, leaving the store untouched. -/
theorem c4_counterexample :
    c4Rec.latitude = none ∧ c4Rec.longitude = some 8 ∧
    processAircraftState c4Rec initialState = (initialState, false) ∧
    (processAircraftState c4Rec initialState).1.positions = [] :=
  ⟨rfl, rfl, rfl, rfl⟩

/-- Witness for `c4_position_gate` at a concrete record with both
coordinates present. -/
theorem c4_position_gate_witness :
    ((processAircraftState c1Rec1 initialState).1).positions =
        initialState.positions ++ [posRowOf c1Rec1] ∧
    alGet ((processAircraftState c1Rec1 initialState).1).currentState
        c1Rec1.icao24 = some (csRowOf c1Rec1) :=
  (c4_position_gate c1Rec1 initialState).2 (by simp [c1Rec1]) (by simp [c1Rec1])

/-! ## C3 (amended): unknown on-ground flag -/

/-- C3 as amended: when a prior persisted state exists, a record with an
unknown on-ground flag never triggers a takeoff or landing transition,
opens no new FlightRecord and closes none, regardless of altitude and
speed.  (On a first-ever observation the code treats the unknown flag as
airborne and may open an in-progress flight — see the counterexample.) -/
theorem c3_unknown_onground_steady (n : AircraftData) (p : CurrentState)
    (s : TrackerState) (hprev : alGet s.currentState n.icao24 = some p)
    (hog : n.onGround = none) :
    detectStateChange n p = none ∧
    ((processAircraftState n s).1).nextId = s.nextId ∧
    ((processAircraftState n s).1).flights.map
        (fun f => (f.id, f.landing_time)) =
      s.flights.map (fun f => (f.id, f.landing_time)) := by
  have hdet : detectStateChange n p = none := by
    simp [detectStateChange, hog]
  refine ⟨hdet, ?_⟩
  by_cases hgate : n.latitude = none ∨ n.longitude = none
  · simp [processAircraftState, if_pos hgate]
  · simp only [processAircraftState, if_neg hgate, hprev, hdet]
    obtain ⟨h1, _, _, _, h5⟩ := updateOngoingFlight_pres n.icao24 n p
      { s with
        positions := s.positions ++ [posRowOf n],
        currentState := alSet s.currentState n.icao24 (csRowOf n) }
    exact ⟨h1, h5⟩

def c3Icao : String := "a948ba"

/-- A first-ever observation with unknown on-ground flag, altitude 100 m
and speed 20 m/s. -/
def c3Rec : AircraftData :=
  { icao24 := c3Icao, lastContact := 1000, longitude := some 8,
    latitude := some 47, altitude := some 100, onGround := none,
    velocity := some 20 }

/-- C3 counterexample: on the first-ever observation of a vehicle with no
prior persisted state, an unknown (`null`) on-ground flag with altitude
> 50 and speed > 15 **does** open a new FlightRecord (`!onGround` is
truthy for `null`), contradicting the claim's first-observation clause. -/
theorem c3_counterexample :
    c3Rec.onGround = none ∧
    alGet initialState.currentState c3Rec.icao24 = none ∧
    (processAircraftState c3Rec initialState).1.flights.length = 1 :=
  ⟨rfl, rfl, rfl⟩

/-- Witness for `c3_unknown_onground_steady` at a concrete state whose
persisted row exists. -/
theorem c3_unknown_onground_steady_witness :
    detectStateChange c3Rec (csRowOf c1Rec2) = none ∧
    ((processAircraftState c3Rec
        { initialState with
          currentState := [(c3Icao, csRowOf c1Rec2)] }).1).nextId =
      ({ initialState with
          currentState := [(c3Icao, csRowOf c1Rec2)] } : TrackerState).nextId ∧
    ((processAircraftState c3Rec
        { initialState with
          currentState := [(c3Icao, csRowOf c1Rec2)] }).1).flights.map
        (fun f => (f.id, f.landing_time)) =
      ({ initialState with
          currentState := [(c3Icao, csRowOf c1Rec2)] } : TrackerState).flights.map
        (fun f => (f.id, f.landing_time)) :=
  c3_unknown_onground_steady c3Rec (csRowOf c1Rec2)
    { initialState with currentState := [(c3Icao, csRowOf c1Rec2)] }
    (by simp [alGet, c3Rec, c3Icao]) rfl

/-! ## C5 (amended): unresolvable landings -/

theorem handleStateChange_landing_unmatched (v : String) (n : AircraftData)
    (p : CurrentState) (s : TrackerState)
    (h1 : ¬ truthyN (alGet s.activeFlights v))
    (h2 : getActiveFlight s v = none) :
    handleStateChange v .landing n p s =
      ({ s with unmatchedLandings := s.unmatchedLandings + 1 }, false) := by
  have hfid : landingFlightId v s = alGet s.activeFlights v := by
    unfold landingFlightId
    rw [if_neg h1, h2]
  simp only [handleStateChange, hfid, if_neg h1]

theorem handleStateChange_landing_stale (v : String) (n : AircraftData)
    (p : CurrentState) (s : TrackerState)
    (h1 : truthyN (alGet s.activeFlights v))
    (h2 : getActiveFlight s v = none) :
    handleStateChange v .landing n p s = (s, true) := by
  have hfid : landingFlightId v s = alGet s.activeFlights v := by
    unfold landingFlightId
    rw [if_pos h1]
  simp only [handleStateChange, hfid, if_pos h1, h2]

/-- C5 as amended: when a landing transition is detected and the
Active-Flight Index holds nothing usable for the vehicle, two different
things happen depending on the store.  If the store also has no open
flight and the index entry is absent (or the falsy id 0), the landing is
logged as unmatched and nothing else changes (no throw, no flight
mutated).  If however the index holds a (truthy) flight id while the
store has no open flight, the code throws a `TypeError` reading
`flight.takeoff_time` — the landing is *not* logged as unmatched — and
still no FlightRecord is created or mutated.  The position write and
state upsert have already happened in both cases. -/
theorem c5_landing_resolution (n : AircraftData) (p : CurrentState)
    (s : TrackerState) (hgate : ¬(n.latitude = none ∨ n.longitude = none))
    (hprev : alGet s.currentState n.icao24 = some p)
    (hdet : detectStateChange n p = some .landing)
    (hstore : getActiveFlight s n.icao24 = none) :
    (¬ truthyN (alGet s.activeFlights n.icao24) →
      processAircraftState n s =
        ({ s with
            positions := s.positions ++ [posRowOf n],
            currentState := alSet s.currentState n.icao24 (csRowOf n),
            unmatchedLandings := s.unmatchedLandings + 1 }, false)) ∧
    (truthyN (alGet s.activeFlights n.icao24) →
      processAircraftState n s =
        ({ s with
            positions := s.positions ++ [posRowOf n],
            currentState := alSet s.currentState n.icao24 (csRowOf n) }, true)) := by
  constructor
  · intro h1
    simp only [processAircraftState, if_neg hgate, hprev, hdet]
    exact handleStateChange_landing_unmatched n.icao24 n p _ h1 hstore
  · intro h1
    simp only [processAircraftState, if_neg hgate, hprev, hdet]
    exact handleStateChange_landing_stale n.icao24 n p _ h1 hstore

/-- A state whose Active-Flight Index maps the C1 vehicle to flight id 1
while the store holds no open flight at all, and whose persisted row says
the vehicle was airborne. -/
def c5StaleState : TrackerState :=
  { flights := [], nextId := 2,
    currentState := [(c1Icao, csRowOf c1Rec2)], positions := [],
    activeFlights := [(c1Icao, 1)], unmatchedLandings := 0 }

/-- C5 counterexample: a landing record processed against
`c5StaleState` — the index holds a flight id but the store has no open
flight — makes `processAircraftState` throw the `flight.takeoff_time`
`TypeError` instead of logging the landing as unmatched; the claim
asserts that in this very case the landing is logged as unmatched and no
error is raised by processing. -/
theorem c5_counterexample :
    (processAircraftState c1Rec3 c5StaleState).2 = true ∧
    (processAircraftState c1Rec3 c5StaleState).1.unmatchedLandings = 0 ∧
    (processAircraftState c1Rec3 c5StaleState).1.flights = [] :=
  ⟨rfl, rfl, rfl⟩

/-- The same state but with an empty Active-Flight Index. -/
def c5EmptyIdxState : TrackerState :=
  { flights := [], nextId := 2,
    currentState := [(c1Icao, csRowOf c1Rec2)], positions := [],
    activeFlights := [], unmatchedLandings := 0 }

/-- Witness for `c5_landing_resolution`: concrete unmatched landing. -/
theorem c5_landing_resolution_witness :
    processAircraftState c1Rec3 c5EmptyIdxState =
      ({ c5EmptyIdxState with
          positions := c5EmptyIdxState.positions ++ [posRowOf c1Rec3],
          currentState :=
            alSet c5EmptyIdxState.currentState c1Rec3.icao24 (csRowOf c1Rec3),
          unmatchedLandings := c5EmptyIdxState.unmatchedLandings + 1 }, false) :=
  (c5_landing_resolution c1Rec3 (csRowOf c1Rec2) c5EmptyIdxState
      (by simp [c1Rec3]) rfl rfl rfl).1 (by simp [alGet, truthyN])

/-! ## C10: zero coordinates normalized to unknown -/

/-- The record gate of `processAircraftState` in isolation. -/
theorem processAircraftState_reject (m : AircraftData) (s : TrackerState)
    (h : m.latitude = none ∨ m.longitude = none) :
    processAircraftState m s = (s, false) := by
  simp only [processAircraftState, if_pos h]

/-- C10: a raw dump1090 or adsb.lol record whose latitude or longitude is
exactly 0 has that coordinate normalized to unknown by the adapter
(`lat || null`), and the state machine then rejects the whole record
before any processing: no position-history write, no last-known-state
upsert, no flight transition. -/
theorem c10_zero_coordinate_rejected (rawD : RawDump1090) (ts : Option ℤ)
    (rawA : RawAdsbLol) (nowSec : ℤ) (s : TrackerState) :
    ((rawD.lat = some 0 →
        (parseDump1090Aircraft rawD ts nowSec).latitude = none) ∧
     (rawD.lon = some 0 →
        (parseDump1090Aircraft rawD ts nowSec).longitude = none) ∧
     ((rawD.lat = some 0 ∨ rawD.lon = some 0) →
        processAircraftState (parseDump1090Aircraft rawD ts nowSec) s =
          (s, false))) ∧
    ((rawA.lat = some 0 →
        (parseAdsbLolAircraft rawA nowSec).latitude = none) ∧
     (rawA.lon = some 0 →
        (parseAdsbLolAircraft rawA nowSec).longitude = none) ∧
     ((rawA.lat = some 0 ∨ rawA.lon = some 0) →
        processAircraftState (parseAdsbLolAircraft rawA nowSec) s =
          (s, false))) := by
  have hD_lat : (parseDump1090Aircraft rawD ts nowSec).latitude =
      orNullQ rawD.lat := rfl
  have hD_lon : (parseDump1090Aircraft rawD ts nowSec).longitude =
      orNullQ rawD.lon := rfl
  have hA_lat : (parseAdsbLolAircraft rawA nowSec).latitude =
      orNullQ rawA.lat := rfl
  have hA_lon : (parseAdsbLolAircraft rawA nowSec).longitude =
      orNullQ rawA.lon := rfl
  have hzero : orNullQ (some 0) = none := rfl
  refine ⟨⟨?_, ?_, ?_⟩, ⟨?_, ?_, ?_⟩⟩
  · intro h
    rw [hD_lat, h, hzero]
  · intro h
    rw [hD_lon, h, hzero]
  · rintro (h | h)
    · exact processAircraftState_reject _ _ (Or.inl (by rw [hD_lat, h, hzero]))
    · exact processAircraftState_reject _ _ (Or.inr (by rw [hD_lon, h, hzero]))
  · intro h
    rw [hA_lat, h, hzero]
  · intro h
    rw [hA_lon, h, hzero]
  · rintro (h | h)
    · exact processAircraftState_reject _ _ (Or.inl (by rw [hA_lat, h, hzero]))
    · exact processAircraftState_reject _ _ (Or.inr (by rw [hA_lon, h, hzero]))

/-- A dump1090 record seen exactly on the equator. -/
def c10RawD : RawDump1090 :=
  { hex := c1Icao, lat := some 0, lon := some 8, altitude := some 3000,
    speed := some 120 }

/-- An adsb.lol record seen exactly on the prime meridian. -/
def c10RawA : RawAdsbLol :=
  { hex := c1Icao, lat := some 47, lon := some 0,
    alt_baro := .num 3000, gs := some 120 }

/-- Witness for `c10_zero_coordinate_rejected` at concrete records. -/
theorem c10_zero_coordinate_rejected_witness :
    (parseDump1090Aircraft c10RawD none 5000).latitude = none ∧
    processAircraftState (parseDump1090Aircraft c10RawD none 5000)
        initialState = (initialState, false) ∧
    (parseAdsbLolAircraft c10RawA 5000).longitude = none ∧
    processAircraftState (parseAdsbLolAircraft c10RawA 5000)
        initialState = (initialState, false) := by
  obtain ⟨⟨hd1, _, hd3⟩, ⟨_, ha2, ha3⟩⟩ :=
    c10_zero_coordinate_rejected c10RawD none c10RawA 5000 initialState
  exact ⟨hd1 rfl, hd3 (Or.inl rfl), ha2 rfl, ha3 (Or.inr rfl)⟩

/-! ## C9: OAuth token lifecycle -/

/-- C9: the client returns the cached token without a network request
whenever the cache is valid; a token request goes out only when the cache
is not valid; a successful token response is stored with its expiry set
300 s (in ms) before the declared `expires_in` lifetime; a failed
(network error or non-2xx, including 429) token request returns `null`
and stores nothing. -/
theorem c9_token_cache (nowMs : ℤ) (resp : Except String TokenResp)
    (st : OskyClientState) :
    (cachedTokenValid st nowMs →
      getAccessToken nowMs resp st = (st.accessToken, st, false)) ∧
    ((getAccessToken nowMs resp st).2.2 = true →
      ¬ cachedTokenValid st nowMs) ∧
    (∀ d : TokenResp, ¬ cachedTokenValid st nowMs →
      credsUsable st.credentials → resp = .ok d → statusOk d.status →
      getAccessToken nowMs resp st =
        (some d.access_token,
         { st with
           accessToken := some d.access_token,
           tokenExpiry := some (nowMs + (d.expires_in - 300) * 1000) },
         true)) ∧
    (¬ cachedTokenValid st nowMs →
      ((∃ msg, resp = .error msg) ∨
       (∃ d, resp = .ok d ∧ ¬ statusOk d.status)) →
      (getAccessToken nowMs resp st).1 = none ∧
      (getAccessToken nowMs resp st).2.1 = st) := by
  refine ⟨?_, ?_, ?_, ?_⟩
  · intro h
    simp only [getAccessToken, if_pos h]
  · intro hreq
    by_cases h : cachedTokenValid st nowMs
    · exfalso
      simp only [getAccessToken, if_pos h] at hreq
      exact Bool.false_ne_true hreq
    · exact h
  · intro d h1 h2 h3 h4
    subst h3
    simp only [getAccessToken, if_neg h1]
    rw [if_neg (by simp [h2])]
    simp only [if_neg (by simp [h4] : ¬(!statusOk d.status) = true)]
  · intro h1 h2
    rcases h2 with ⟨msg, rfl⟩ | ⟨d, rfl, hbad⟩
    · by_cases hc : credsUsable st.credentials <;>
        simp [getAccessToken, h1, hc]
    · by_cases hc : credsUsable st.credentials <;>
        simp [getAccessToken, h1, hc, hbad]

def c9Token : String := "cached-token"

def c9ClientId : String := "client-id"

def c9Secret : String := "client-secret"

/-- A client with a cached token that expires at epoch-ms 99999. -/
def c9State : OskyClientState :=
  { credentials := some { clientId := c9ClientId, clientSecret := c9Secret },
    accessToken := some c9Token, tokenExpiry := some 99999 }

/-- Witness for `c9_token_cache`: at time 50000 the cached token is
returned unchanged with no network request. -/
theorem c9_token_cache_witness :
    getAccessToken 50000 (Except.error c9Token) c9State =
      (some c9Token, c9State, false) :=
  (c9_token_cache 50000 (Except.error c9Token) c9State).1 rfl

/-! ## Fusion lemmas -/

/-- The results-map component of the merge loops: repeated `Map.set`. -/
def runResults (r : ResultsMap) (acs : List AircraftData) : ResultsMap :=
  acs.foldl (fun rr a => alSet rr a.icao24 a) r

def keysOf (l : ResultsMap) : List String := l.map (·.1)

def icaosOf (acs : List AircraftData) : List String := acs.map (·.icao24)

/-- Every stored record sits under its own identifier. -/
def consistentMap (l : ResultsMap) : Prop := ∀ p ∈ l, p.2.icao24 = p.1

theorem runSplice_fst (r : ResultsMap) (c : ℕ) (m : List String)
    (acs : List AircraftData) :
    (runSplice (r, c, m) acs).1 = runResults r acs := by
  induction acs generalizing r c m with
  | nil => rfl
  | cons a as ih =>
      simp only [runSplice, List.foldl, mergeSplice, runResults]
      exact ih _ _ _

theorem runSplice_count (r : ResultsMap) (c : ℕ) (m : List String)
    (acs : List AircraftData) :
    (runSplice (r, c, m) acs).2.1 = c + acs.length := by
  induction acs generalizing r c m with
  | nil => rfl
  | cons a as ih =>
      rw [show runSplice (r, c, m) (a :: as) =
        runSplice (alSet r a.icao24 a, c + 1, m.erase a.icao24) as from rfl]
      rw [ih, List.length_cons]
      omega

theorem runSplice_missing (r : ResultsMap) (c : ℕ) (m : List String)
    (acs : List AircraftData) :
    (runSplice (r, c, m) acs).2.2 =
      acs.foldl (fun mm a => mm.erase a.icao24) m := by
  induction acs generalizing r c m with
  | nil => rfl
  | cons a as ih =>
      simp only [runSplice, List.foldl, mergeSplice]
      exact ih _ _ _

theorem runNoSplice_fst (r : ResultsMap) (c : ℕ) (acs : List AircraftData) :
    (runNoSplice (r, c) acs).1 = runResults r acs := by
  induction acs generalizing r c with
  | nil => rfl
  | cons a as ih =>
      simp only [runNoSplice, List.foldl, mergeNoSplice, runResults]
      exact ih _ _

theorem runNoSplice_count (r : ResultsMap) (c : ℕ) (acs : List AircraftData) :
    (runNoSplice (r, c) acs).2 = c + acs.length := by
  induction acs generalizing r c with
  | nil => rfl
  | cons a as ih =>
      rw [show runNoSplice (r, c) (a :: as) =
        runNoSplice (alSet r a.icao24 a, c + 1) as from rfl]
      rw [ih, List.length_cons]
      omega

theorem alGet_some_mem_keys {l : ResultsMap} {x : String} {rec : AircraftData}
    (h : alGet l x = some rec) : x ∈ keysOf l := by
  induction l with
  | nil => simp [alGet] at h
  | cons p l ih =>
      by_cases hp : p.1 = x
      · simp [keysOf, hp]
      · rw [alGet, if_neg (by simpa using hp)] at h
        simp [keysOf] at ih ⊢
        exact Or.inr (by simpa [keysOf] using ih h)

theorem alGet_runResults_notmem (r : ResultsMap) (acs : List AircraftData)
    (x : String) (h : x ∉ icaosOf acs) :
    alGet (runResults r acs) x = alGet r x := by
  induction acs generalizing r with
  | nil => rfl
  | cons a as ih =>
      simp only [icaosOf, List.map_cons, List.mem_cons, not_or] at h
      simp only [runResults, List.foldl]
      rw [show (as.foldl (fun rr b => alSet rr b.icao24 b)
          (alSet r a.icao24 a)) = runResults (alSet r a.icao24 a) as from rfl]
      rw [ih _ (by simpa [icaosOf] using h.2)]
      exact alGet_alSet_ne _ _ _ _ h.1

theorem mem_keys_alSet (l : ResultsMap) (k x : String) (v : AircraftData) :
    x ∈ keysOf (alSet l k v) → x ∈ keysOf l ∨ x = k := by
  induction l with
  | nil =>
      intro h
      simp [alSet, keysOf] at h
      exact Or.inr h
  | cons p l ih =>
      intro h
      by_cases hp : (p.1 == k) = true
      · simp only [alSet, if_pos hp, keysOf, List.map_cons,
          List.mem_cons] at h
        rcases h with h | h
        · exact Or.inr h
        · exact Or.inl (by simp only [keysOf, List.map_cons,
            List.mem_cons]; exact Or.inr h)
      · simp only [alSet, if_neg hp, keysOf, List.map_cons,
          List.mem_cons] at h
        rcases h with h | h
        · exact Or.inl (by simp only [keysOf, List.map_cons,
            List.mem_cons]; exact Or.inl h)
        · rcases ih h with h' | h'
          · exact Or.inl (by simp only [keysOf, List.map_cons,
              List.mem_cons]; exact Or.inr h')
          · exact Or.inr h'

theorem mem_keys_runResults (r : ResultsMap) (acs : List AircraftData)
    (x : String) : x ∈ keysOf (runResults r acs) →
      x ∈ keysOf r ∨ x ∈ icaosOf acs := by
  induction acs generalizing r with
  | nil => exact fun h => Or.inl h
  | cons a as ih =>
      intro h
      simp only [runResults, List.foldl] at h
      rcases ih (alSet r a.icao24 a) h with h' | h'
      · rcases mem_keys_alSet r a.icao24 x a h' with h'' | h''
        · exact Or.inl h''
        · exact Or.inr (by simp [icaosOf, h''])
      · exact Or.inr (by simp [icaosOf]; right; simpa [icaosOf] using h')

theorem alSet_of_not_mem (l : ResultsMap) (k : String) (v : AircraftData)
    (h : k ∉ keysOf l) : alSet l k v = l ++ [(k, v)] := by
  induction l with
  | nil => rfl
  | cons p l ih =>
      simp only [keysOf, List.map_cons, List.mem_cons, not_or] at h
      rw [alSet, if_neg (by simpa using fun hc => h.1 hc.symm),
        ih (by simpa [keysOf] using h.2)]
      rfl

theorem runResults_fresh (r : ResultsMap) (acs : List AircraftData)
    (hdisj : ∀ a ∈ acs, a.icao24 ∉ keysOf r) (hnd : (icaosOf acs).Nodup) :
    runResults r acs = r ++ acs.map (fun a => (a.icao24, a)) := by
  induction acs generalizing r with
  | nil => simp [runResults]
  | cons a as ih =>
      have hstep : alSet r a.icao24 a = r ++ [(a.icao24, a)] :=
        alSet_of_not_mem r a.icao24 a (hdisj a (List.mem_cons_self a as))
      rw [show runResults r (a :: as) =
        runResults (alSet r a.icao24 a) as from rfl, hstep]
      rw [ih]
      · simp
      · intro b hb
        simp only [keysOf, List.map_append, List.mem_append] at *
        rintro (hc | hc)
        · exact hdisj b (List.mem_cons_of_mem a hb) (by simpa [keysOf] using hc)
        · simp only [List.map_cons, List.map_nil, List.mem_singleton] at hc
          simp only [icaosOf, List.map_cons, List.nodup_cons] at hnd
          exact hnd.1 (hc ▸ List.mem_map_of_mem (·.icao24) hb)
      · simp only [icaosOf, List.map_cons, List.nodup_cons] at hnd
        exact hnd.2

theorem alSet_keys_nodup (l : ResultsMap) (k : String) (v : AircraftData)
    (h : (keysOf l).Nodup) : (keysOf (alSet l k v)).Nodup := by
  induction l with
  | nil => simp [alSet, keysOf]
  | cons p l ih =>
      simp only [keysOf, List.map_cons, List.nodup_cons] at h
      by_cases hp : (p.1 == k) = true
      · have hpk : p.1 = k := by simpa using hp
        simp only [alSet, if_pos hp, keysOf, List.map_cons, List.nodup_cons]
        exact ⟨by rw [← hpk]; exact h.1, h.2⟩
      · simp only [alSet, if_neg hp, keysOf, List.map_cons, List.nodup_cons]
        refine ⟨?_, ih h.2⟩
        intro hc
        rcases mem_keys_alSet l k p.1 v hc with h' | h'
        · exact h.1 h'
        · exact absurd h' (by simpa using hp)

theorem runResults_keys_nodup (r : ResultsMap) (acs : List AircraftData)
    (h : (keysOf r).Nodup) : (keysOf (runResults r acs)).Nodup := by
  induction acs generalizing r with
  | nil => exact h
  | cons a as ih =>
      exact ih (alSet r a.icao24 a) (alSet_keys_nodup r a.icao24 a h)

theorem alSet_consistent (l : ResultsMap) (k : String) (v : AircraftData)
    (hl : consistentMap l) (hv : v.icao24 = k) :
    consistentMap (alSet l k v) := by
  induction l with
  | nil =>
      intro p hp
      simp only [alSet, List.mem_singleton] at hp
      rw [hp]
      exact hv
  | cons q l ih =>
      intro p hp
      by_cases hq : (q.1 == k) = true
      · simp only [alSet, if_pos hq, List.mem_cons] at hp
        rcases hp with hp | hp
        · rw [hp]; exact hv
        · exact hl p (List.mem_cons_of_mem q hp)
      · simp only [alSet, if_neg hq, List.mem_cons] at hp
        rcases hp with hp | hp
        · rw [hp]; exact hl q (List.mem_cons_self q l)
        · exact ih (fun p' hp' => hl p' (List.mem_cons_of_mem q hp')) p hp

theorem runResults_consistent (r : ResultsMap) (acs : List AircraftData)
    (h : consistentMap r) : consistentMap (runResults r acs) := by
  induction acs generalizing r with
  | nil => exact h
  | cons a as ih =>
      exact ih (alSet r a.icao24 a) (alSet_consistent r a.icao24 a h rfl)

theorem alGet_mem_values (l : ResultsMap) (x : String) (rec : AircraftData)
    (h : alGet l x = some rec) : rec ∈ l.map (·.2) := by
  induction l with
  | nil => simp [alGet] at h
  | cons p l ih =>
      by_cases hp : (p.1 == x) = true
      · rw [alGet, if_pos hp] at h
        simp only [List.map_cons, List.mem_cons]
        exact Or.inl (by injection h with h'; exact h'.symm)
      · rw [alGet, if_neg hp] at h
        simp only [List.map_cons, List.mem_cons]
        exact Or.inr (ih h)

theorem mem_entry_unique (l : ResultsMap) (x : String)
    (rec rec' : AircraftData) (hnd : (keysOf l).Nodup)
    (hget : alGet l x = some rec) (hmem : (x, rec') ∈ l) : rec' = rec := by
  induction l with
  | nil => simp at hmem
  | cons p l ih =>
      simp only [keysOf, List.map_cons, List.nodup_cons] at hnd
      by_cases hp : (p.1 == x) = true
      · rw [alGet, if_pos hp] at hget
        injection hget with hget
        rcases List.mem_cons.mp hmem with hm | hm
        · rw [← hget, ← hm]
        · exfalso
          exact hnd.1 (by
            have : p.1 = x := by simpa using hp
            rw [this]
            exact List.mem_map_of_mem (·.1) hm)
      · rw [alGet, if_neg hp] at hget
        rcases List.mem_cons.mp hmem with hm | hm
        · exfalso
          have : p.1 = x := by rw [← hm]
          exact absurd this (by simpa using hp)
        · exact ih hnd.2 hget hm

theorem values_unique (l : ResultsMap) (x : String)
    (rec rec' : AircraftData) (hc : consistentMap l)
    (hnd : (keysOf l).Nodup) (hget : alGet l x = some rec)
    (hmem : rec' ∈ l.map (·.2)) (hkey : rec'.icao24 = x) : rec' = rec := by
  rcases List.mem_map.mp hmem with ⟨p, hp, hp2⟩
  have hkeyp : p.1 = x := by rw [← hc p hp, hp2, hkey]
  have : (x, rec') ∈ l := by
    have : p = (x, rec') := by
      cases p
      simp only at hp2 hkeyp
      rw [hp2, hkeyp]
    rw [← this]
    exact hp
  exact mem_entry_unique l x rec rec' hnd hget this

theorem foldl_erase_not_mem (acs : List AircraftData) (m : List String)
    (x : String) (h : x ∉ m) :
    x ∉ acs.foldl (fun mm a => mm.erase a.icao24) m := by
  induction acs generalizing m with
  | nil => exact h
  | cons a as ih =>
      exact ih (m.erase a.icao24) (fun hc => h (List.mem_of_mem_erase hc))

theorem foldl_erase_nodup (acs : List AircraftData) (m : List String)
    (h : m.Nodup) : (acs.foldl (fun mm a => mm.erase a.icao24) m).Nodup := by
  induction acs generalizing m with
  | nil => exact h
  | cons a as ih => exact ih (m.erase a.icao24) (h.erase _)

theorem foldl_erase_subset (acs : List AircraftData) (m : List String) :
    acs.foldl (fun mm a => mm.erase a.icao24) m ⊆ m := by
  induction acs generalizing m with
  | nil => exact fun _ h => h
  | cons a as ih =>
      exact fun y hy =>
        List.mem_of_mem_erase (ih (m.erase a.icao24) hy)

theorem mem_icaos_not_mem_foldl_erase (acs : List AircraftData)
    (m : List String) (x : String) (hnd : m.Nodup) (hx : x ∈ icaosOf acs) :
    x ∉ acs.foldl (fun mm a => mm.erase a.icao24) m := by
  induction acs generalizing m with
  | nil => simp [icaosOf] at hx
  | cons a as ih =>
      simp only [icaosOf, List.map_cons, List.mem_cons] at hx
      rcases hx with hx | hx
      · refine foldl_erase_not_mem as (m.erase a.icao24) x ?_
        rw [hx]
        intro hc
        exact absurd ((hnd.mem_erase_iff).mp hc).1 (by simp)
      · exact ih (m.erase a.icao24) (hnd.erase _) hx

theorem phaseLocal_fst (cfg : FusionConfig) (localResp : List AircraftData)
    (icaos : List String) :
    (fusionPhaseLocal cfg localResp icaos).1 =
      if cfg.dump1090Enabled && !localResp.isEmpty then
        runResults [] localResp
      else [] := by
  unfold fusionPhaseLocal
  split
  · exact runSplice_fst _ _ _ _
  · rfl

theorem phaseLocal_count (cfg : FusionConfig) (localResp : List AircraftData)
    (icaos : List String) :
    (fusionPhaseLocal cfg localResp icaos).2.1 =
      if cfg.dump1090Enabled && !localResp.isEmpty then
        localResp.length
      else 0 := by
  unfold fusionPhaseLocal
  split
  · rw [runSplice_count]
    omega
  · rfl

theorem phaseLocal_missing (cfg : FusionConfig)
    (localResp : List AircraftData) (icaos : List String) :
    (fusionPhaseLocal cfg localResp icaos).2.2 =
      if cfg.dump1090Enabled && !localResp.isEmpty then
        localResp.foldl (fun mm a => mm.erase a.icao24) icaos
      else icaos := by
  unfold fusionPhaseLocal
  split
  · exact runSplice_missing _ _ _ _
  · rfl

theorem phase2_fst (cfg : FusionConfig)
    (adsbFetch : List String → List AircraftData) (r : ResultsMap)
    (m : List String) :
    (fusionPhase2 cfg adsbFetch r m).1 =
      if !m.isEmpty && cfg.adsbLolEnabled then
        (if !(adsbFetch m).isEmpty then runResults r (adsbFetch m) else r)
      else r := by
  unfold fusionPhase2
  split
  · dsimp only
    split
    · exact runSplice_fst _ _ _ _
    · rfl
  · rfl

theorem phase2_count (cfg : FusionConfig)
    (adsbFetch : List String → List AircraftData) (r : ResultsMap)
    (m : List String) :
    (fusionPhase2 cfg adsbFetch r m).2.1 =
      if !m.isEmpty && cfg.adsbLolEnabled then
        (if !(adsbFetch m).isEmpty then (adsbFetch m).length else 0)
      else 0 := by
  unfold fusionPhase2
  split
  · dsimp only
    split
    · rw [runSplice_count]
      omega
    · rfl
  · rfl

theorem phase2_missing (cfg : FusionConfig)
    (adsbFetch : List String → List AircraftData) (r : ResultsMap)
    (m : List String) :
    (fusionPhase2 cfg adsbFetch r m).2.2 =
      if !m.isEmpty && cfg.adsbLolEnabled then
        (if !(adsbFetch m).isEmpty then
          (adsbFetch m).foldl (fun mm a => mm.erase a.icao24) m
        else m)
      else m := by
  unfold fusionPhase2
  split
  · dsimp only
    split
    · exact runSplice_missing _ _ _ _
    · rfl
  · rfl

theorem phase3_fst (r : ResultsMap) (osr : OpenSkyResult) :
    (fusionPhase3 r osr).1 =
      if !((osr.aircraft.getD []).isEmpty) then
        runResults r (osr.aircraft.getD [])
      else r := by
  unfold fusionPhase3
  cases hair : osr.aircraft with
  | none => simp
  | some acs =>
      simp only [Option.getD_some]
      split
      · exact runNoSplice_fst _ _ _
      · rfl

theorem phase3_count (r : ResultsMap) (osr : OpenSkyResult) :
    (fusionPhase3 r osr).2 =
      if !((osr.aircraft.getD []).isEmpty) then
        (osr.aircraft.getD []).length
      else 0 := by
  unfold fusionPhase3
  cases hair : osr.aircraft with
  | none => simp
  | some acs =>
      simp only [Option.getD_some]
      split
      · rw [runNoSplice_count]
        omega
      · rfl

/-- The snapshot list returned by `fetchFleetData`, independent of
whether an error descriptor is attached. -/
theorem fetchFleetData_aircraft (cfg : FusionConfig)
    (localResp : List AircraftData)
    (adsbFetch : List String → List AircraftData)
    (openskyFetch : List String → OpenSkyResult) (icaos : List String) :
    (fetchFleetData cfg localResp adsbFetch openskyFetch icaos).aircraft =
      if ((fusionPhase2 cfg adsbFetch
            (fusionPhaseLocal cfg localResp icaos).1
            (fusionPhaseLocal cfg localResp icaos).2.2).2.2).isEmpty then
        ((fusionPhase2 cfg adsbFetch (fusionPhaseLocal cfg localResp icaos).1
            (fusionPhaseLocal cfg localResp icaos).2.2).1).map (·.2)
      else
        ((fusionPhase3
            (fusionPhase2 cfg adsbFetch (fusionPhaseLocal cfg localResp icaos).1
              (fusionPhaseLocal cfg localResp icaos).2.2).1
            (openskyFetch (fusionPhase2 cfg adsbFetch
              (fusionPhaseLocal cfg localResp icaos).1
              (fusionPhaseLocal cfg localResp icaos).2.2).2.2)).1).map (·.2) := by
  unfold fetchFleetData
  dsimp only
  split
  · rfl
  · split <;> rfl

/-- The per-source counts returned by `fetchFleetData`. -/
theorem fetchFleetData_sources (cfg : FusionConfig)
    (localResp : List AircraftData)
    (adsbFetch : List String → List AircraftData)
    (openskyFetch : List String → OpenSkyResult) (icaos : List String) :
    (fetchFleetData cfg localResp adsbFetch openskyFetch icaos).sources =
      ⟨(fusionPhaseLocal cfg localResp icaos).2.1,
       (fusionPhase2 cfg adsbFetch (fusionPhaseLocal cfg localResp icaos).1
         (fusionPhaseLocal cfg localResp icaos).2.2).2.1,
       if ((fusionPhase2 cfg adsbFetch (fusionPhaseLocal cfg localResp icaos).1
            (fusionPhaseLocal cfg localResp icaos).2.2).2.2).isEmpty then 0
       else (fusionPhase3
          (fusionPhase2 cfg adsbFetch (fusionPhaseLocal cfg localResp icaos).1
            (fusionPhaseLocal cfg localResp icaos).2.2).1
          (openskyFetch (fusionPhase2 cfg adsbFetch
            (fusionPhaseLocal cfg localResp icaos).1
            (fusionPhaseLocal cfg localResp icaos).2.2).2.2)).2⟩ := by
  unfold fetchFleetData
  dsimp only
  split
  · rfl
  · split <;> rfl

theorem phase1_keys_not_missing (cfg : FusionConfig)
    (localResp : List AircraftData) (icaos : List String)
    (hnodup : icaos.Nodup) :
    ∀ y, y ∈ keysOf (fusionPhaseLocal cfg localResp icaos).1 →
      y ∉ (fusionPhaseLocal cfg localResp icaos).2.2 := by
  intro y hy
  rw [phaseLocal_fst] at hy
  rw [phaseLocal_missing]
  by_cases h1 : (cfg.dump1090Enabled && !localResp.isEmpty) = true
  · rw [if_pos h1] at hy
    rw [if_pos h1]
    rcases mem_keys_runResults [] localResp y hy with h | h
    · simp [keysOf] at h
    · exact mem_icaos_not_mem_foldl_erase localResp icaos y hnodup h
  · rw [if_neg h1] at hy
    simp [keysOf] at hy

theorem phase1_missing_nodup (cfg : FusionConfig)
    (localResp : List AircraftData) (icaos : List String)
    (hnodup : icaos.Nodup) :
    ((fusionPhaseLocal cfg localResp icaos).2.2).Nodup := by
  rw [phaseLocal_missing]
  split
  · exact foldl_erase_nodup _ _ hnodup
  · exact hnodup

theorem phase1_consistent (cfg : FusionConfig)
    (localResp : List AircraftData) (icaos : List String) :
    consistentMap (fusionPhaseLocal cfg localResp icaos).1 := by
  rw [phaseLocal_fst]
  split
  · exact runResults_consistent [] localResp
      (fun p hp => absurd hp (List.not_mem_nil p))
  · exact fun p hp => absurd hp (List.not_mem_nil p)

theorem phase1_keys_nodup (cfg : FusionConfig)
    (localResp : List AircraftData) (icaos : List String) :
    (keysOf (fusionPhaseLocal cfg localResp icaos).1).Nodup := by
  rw [phaseLocal_fst]
  split
  · exact runResults_keys_nodup [] localResp (by simp [keysOf])
  · simp [keysOf]

theorem phase2_get_preserved (cfg : FusionConfig)
    (adsbFetch : List String → List AircraftData) (r : ResultsMap)
    (m : List String) (hsub : icaosOf (adsbFetch m) ⊆ m) (x : String)
    (rec : AircraftData) (hxm : x ∉ m) (hget : alGet r x = some rec) :
    alGet (fusionPhase2 cfg adsbFetch r m).1 x = some rec := by
  rw [phase2_fst]
  by_cases h2 : (!m.isEmpty && cfg.adsbLolEnabled) = true
  · rw [if_pos h2]
    by_cases h3 : (!(adsbFetch m).isEmpty) = true
    · rw [if_pos h3, alGet_runResults_notmem]
      · exact hget
      · exact fun hc => hxm (hsub hc)
    · rw [if_neg h3]
      exact hget
  · rw [if_neg h2]
    exact hget

theorem phase2_keys_not_missing (cfg : FusionConfig)
    (adsbFetch : List String → List AircraftData) (r : ResultsMap)
    (m : List String) (hm : m.Nodup) (hkr : ∀ y, y ∈ keysOf r → y ∉ m) :
    ∀ y, y ∈ keysOf (fusionPhase2 cfg adsbFetch r m).1 →
      y ∉ (fusionPhase2 cfg adsbFetch r m).2.2 := by
  intro y hy
  rw [phase2_fst] at hy
  rw [phase2_missing]
  by_cases h2 : (!m.isEmpty && cfg.adsbLolEnabled) = true
  · rw [if_pos h2] at hy ⊢
    by_cases h3 : (!(adsbFetch m).isEmpty) = true
    · rw [if_pos h3] at hy ⊢
      rcases mem_keys_runResults r (adsbFetch m) y hy with h | h
      · exact foldl_erase_not_mem _ _ _ (hkr y h)
      · exact mem_icaos_not_mem_foldl_erase _ _ _ hm h
    · rw [if_neg h3] at hy ⊢
      exact hkr y hy
  · rw [if_neg h2] at hy ⊢
    exact hkr y hy

theorem phase2_consistent (cfg : FusionConfig)
    (adsbFetch : List String → List AircraftData) (r : ResultsMap)
    (m : List String) (h : consistentMap r) :
    consistentMap (fusionPhase2 cfg adsbFetch r m).1 := by
  rw [phase2_fst]
  split
  · split
    · exact runResults_consistent _ _ h
    · exact h
  · exact h

theorem phase2_keys_nodup (cfg : FusionConfig)
    (adsbFetch : List String → List AircraftData) (r : ResultsMap)
    (m : List String) (h : (keysOf r).Nodup) :
    (keysOf (fusionPhase2 cfg adsbFetch r m).1).Nodup := by
  rw [phase2_fst]
  split
  · split
    · exact runResults_keys_nodup _ _ h
    · exact h
  · exact h

theorem phase3_get_preserved (r : ResultsMap) (osr : OpenSkyResult)
    (x : String) (rec : AircraftData)
    (hfresh : x ∉ icaosOf (osr.aircraft.getD []))
    (hget : alGet r x = some rec) :
    alGet (fusionPhase3 r osr).1 x = some rec := by
  rw [phase3_fst]
  split
  · rw [alGet_runResults_notmem _ _ _ hfresh]
    exact hget
  · exact hget

theorem phase3_consistent (r : ResultsMap) (osr : OpenSkyResult)
    (h : consistentMap r) : consistentMap (fusionPhase3 r osr).1 := by
  rw [phase3_fst]
  split
  · exact runResults_consistent _ _ h
  · exact h

theorem phase3_keys_nodup (r : ResultsMap) (osr : OpenSkyResult)
    (h : (keysOf r).Nodup) : (keysOf (fusionPhase3 r osr).1).Nodup := by
  rw [phase3_fst]
  split
  · exact runResults_keys_nodup _ _ h
  · exact h

/-! ## C2 (amended): priority sources win -/

/-- C2 as amended: for a fusion fetch over a duplicate-free identifier
list, with each lower-priority source resolving only identifiers it was
asked for, a vehicle resolved by a higher-priority source is never
overwritten: its record survives the adsb.lol phase unchanged, appears in
the final snapshot, and is the unique record for its identifier there.
(With duplicated identifiers in the request list this fails — see the
counterexample.) -/
theorem c2_priority_wins (cfg : FusionConfig)
    (localResp : List AircraftData)
    (adsbFetch : List String → List AircraftData)
    (openskyFetch : List String → OpenSkyResult) (icaos : List String)
    (hnodup : icaos.Nodup)
    (hadsb_sub : ∀ l, icaosOf (adsbFetch l) ⊆ l)
    (hosky_sub : ∀ l, icaosOf ((openskyFetch l).aircraft.getD []) ⊆ l) :
    (∀ x rec,
      alGet (fusionPhaseLocal cfg localResp icaos).1 x = some rec →
      alGet (fusionPhase2 cfg adsbFetch
          (fusionPhaseLocal cfg localResp icaos).1
          (fusionPhaseLocal cfg localResp icaos).2.2).1 x = some rec) ∧
    (∀ x rec,
      alGet (fusionPhase2 cfg adsbFetch
          (fusionPhaseLocal cfg localResp icaos).1
          (fusionPhaseLocal cfg localResp icaos).2.2).1 x = some rec →
      rec ∈ (fetchFleetData cfg localResp adsbFetch openskyFetch
          icaos).aircraft ∧
      ∀ rec' ∈ (fetchFleetData cfg localResp adsbFetch openskyFetch
          icaos).aircraft, rec'.icao24 = x → rec' = rec) := by
  have hkr1 := phase1_keys_not_missing cfg localResp icaos hnodup
  have hm1nd := phase1_missing_nodup cfg localResp icaos hnodup
  have hcons2 := phase2_consistent cfg adsbFetch
    (fusionPhaseLocal cfg localResp icaos).1
    (fusionPhaseLocal cfg localResp icaos).2.2
    (phase1_consistent cfg localResp icaos)
  have hnd2 := phase2_keys_nodup cfg adsbFetch
    (fusionPhaseLocal cfg localResp icaos).1
    (fusionPhaseLocal cfg localResp icaos).2.2
    (phase1_keys_nodup cfg localResp icaos)
  have hkr2 := phase2_keys_not_missing cfg adsbFetch
    (fusionPhaseLocal cfg localResp icaos).1
    (fusionPhaseLocal cfg localResp icaos).2.2 hm1nd hkr1
  constructor
  · intro x rec hget
    exact phase2_get_preserved cfg adsbFetch _ _ (hadsb_sub _) x rec
      (hkr1 x (alGet_some_mem_keys hget)) hget
  · intro x rec hget
    have hxm2 := hkr2 x (alGet_some_mem_keys hget)
    rw [fetchFleetData_aircraft]
    by_cases hm2e : ((fusionPhase2 cfg adsbFetch
        (fusionPhaseLocal cfg localResp icaos).1
        (fusionPhaseLocal cfg localResp icaos).2.2).2.2).isEmpty = true
    · rw [if_pos hm2e]
      refine ⟨alGet_mem_values _ _ _ hget, ?_⟩
      intro rec' hmem hkey
      exact values_unique _ x rec rec' hcons2 hnd2 hget hmem hkey
    · rw [if_neg hm2e]
      have hget3 := phase3_get_preserved _
        (openskyFetch (fusionPhase2 cfg adsbFetch
          (fusionPhaseLocal cfg localResp icaos).1
          (fusionPhaseLocal cfg localResp icaos).2.2).2.2) x rec
        (fun hc => hxm2 (hosky_sub _ hc)) hget
      refine ⟨alGet_mem_values _ _ _ hget3, ?_⟩
      intro rec' hmem hkey
      exact values_unique _ x rec rec' (phase3_consistent _ _ hcons2)
        (phase3_keys_nodup _ _ hnd2) hget3 hmem hkey

/-- The local receiver's record for the C1 vehicle. -/
def c2Local : AircraftData :=
  { icao24 := c1Icao, lastContact := 100, latitude := some 47,
    longitude := some 8, onGround := some false,
    source := some srcDump1090 }

/-- The adsb.lol record for the same vehicle. -/
def c2Adsb : AircraftData :=
  { icao24 := c1Icao, lastContact := 100, latitude := some 47,
    longitude := some 8, onGround := some false,
    source := some srcAdsbLol }

/-- C2 counterexample: with the identifier listed twice in the request,
the local (highest-priority) source resolves it, but only one of its two
occurrences is spliced out of the missing list, so adsb.lol is queried
for it again and its record overwrites the local one in the snapshot. -/
theorem c2_counterexample :
    alGet (fusionPhaseLocal ⟨true, true⟩ [c2Local]
        [c1Icao, c1Icao]).1 c1Icao = some c2Local ∧
    (fetchFleetData ⟨true, true⟩ [c2Local] (fun _ => [c2Adsb])
        (fun _ => {}) [c1Icao, c1Icao]).aircraft = [c2Adsb] ∧
    c2Adsb ≠ c2Local :=
  ⟨rfl, rfl, by decide⟩

/-- Witness for `c2_priority_wins` at a concrete duplicate-free call. -/
theorem c2_priority_wins_witness :
    c2Local ∈ (fetchFleetData ⟨true, true⟩ [c2Local] (fun _ => [])
      (fun _ => {}) [c1Icao]).aircraft :=
  ((c2_priority_wins ⟨true, true⟩ [c2Local] (fun _ => []) (fun _ => {})
      [c1Icao] (by decide) (fun l => by simp [icaosOf])
      (fun l => by simp [icaosOf])).2 c1Icao c2Local rfl).1

/-! ## C7 (amended): per-source counts sum to the snapshot size -/

theorem phase1_length (cfg : FusionConfig) (localResp : List AircraftData)
    (icaos : List String) (hlocal_nd : (icaosOf localResp).Nodup) :
    ((fusionPhaseLocal cfg localResp icaos).1).length =
      (fusionPhaseLocal cfg localResp icaos).2.1 := by
  rw [phaseLocal_fst, phaseLocal_count]
  split
  · rw [runResults_fresh [] localResp (by simp [keysOf]) hlocal_nd]
    simp
  · rfl

theorem phase2_length (cfg : FusionConfig)
    (adsbFetch : List String → List AircraftData) (r : ResultsMap)
    (m : List String) (hnd : (icaosOf (adsbFetch m)).Nodup)
    (hsub : icaosOf (adsbFetch m) ⊆ m)
    (hkr : ∀ y, y ∈ keysOf r → y ∉ m) :
    ((fusionPhase2 cfg adsbFetch r m).1).length =
      r.length + (fusionPhase2 cfg adsbFetch r m).2.1 := by
  rw [phase2_fst, phase2_count]
  split
  · split
    · rw [runResults_fresh r (adsbFetch m) ?_ hnd]
      · simp
      · intro a ha hc
        exact hkr a.icao24 hc (hsub (List.mem_map_of_mem _ ha))
    · simp
  · simp

theorem phase3_length (r : ResultsMap) (osr : OpenSkyResult)
    (hnd : (icaosOf (osr.aircraft.getD [])).Nodup)
    (hfresh : ∀ a ∈ osr.aircraft.getD [], a.icao24 ∉ keysOf r) :
    ((fusionPhase3 r osr).1).length = r.length + (fusionPhase3 r osr).2 := by
  rw [phase3_fst, phase3_count]
  split
  · rw [runResults_fresh r (osr.aircraft.getD []) hfresh hnd]
    simp
  · simp

/-- C7 as amended: for a fusion fetch over a duplicate-free identifier
list, with each source resolving only identifiers it was asked for and
resolving each at most once, the per-source counts sum to the number of
records in the snapshot, and the identifier sets resolved by the three
sources are pairwise disjoint (no identifier counted by more than one
source).  With duplicated identifiers in the request this fails — see
the counterexample. -/
theorem c7_counts_match (cfg : FusionConfig)
    (localResp : List AircraftData)
    (adsbFetch : List String → List AircraftData)
    (openskyFetch : List String → OpenSkyResult) (icaos : List String)
    (hnodup : icaos.Nodup)
    (hlocal_nd : (icaosOf localResp).Nodup)
    (hadsb : ∀ l, icaosOf (adsbFetch l) ⊆ l ∧ (icaosOf (adsbFetch l)).Nodup)
    (hosky : ∀ l, icaosOf ((openskyFetch l).aircraft.getD []) ⊆ l ∧
      (icaosOf ((openskyFetch l).aircraft.getD [])).Nodup) :
    (fetchFleetData cfg localResp adsbFetch openskyFetch
        icaos).sources.localSrc +
      (fetchFleetData cfg localResp adsbFetch openskyFetch
        icaos).sources.adsbLol +
      (fetchFleetData cfg localResp adsbFetch openskyFetch
        icaos).sources.opensky =
      ((fetchFleetData cfg localResp adsbFetch openskyFetch
        icaos).aircraft).length ∧
    (icaosOf (adsbFetch (fusionPhaseLocal cfg localResp icaos).2.2)).Disjoint
      (keysOf (fusionPhaseLocal cfg localResp icaos).1) ∧
    (icaosOf ((openskyFetch (fusionPhase2 cfg adsbFetch
        (fusionPhaseLocal cfg localResp icaos).1
        (fusionPhaseLocal cfg localResp icaos).2.2).2.2).aircraft.getD
          [])).Disjoint
      (keysOf (fusionPhase2 cfg adsbFetch
        (fusionPhaseLocal cfg localResp icaos).1
        (fusionPhaseLocal cfg localResp icaos).2.2).1) := by
  have hkr1 := phase1_keys_not_missing cfg localResp icaos hnodup
  have hm1nd := phase1_missing_nodup cfg localResp icaos hnodup
  have hkr2 := phase2_keys_not_missing cfg adsbFetch
    (fusionPhaseLocal cfg localResp icaos).1
    (fusionPhaseLocal cfg localResp icaos).2.2 hm1nd hkr1
  have h1 := phase1_length cfg localResp icaos hlocal_nd
  have h2 := phase2_length cfg adsbFetch
    (fusionPhaseLocal cfg localResp icaos).1
    (fusionPhaseLocal cfg localResp icaos).2.2
    (hadsb _).2 (hadsb _).1 hkr1
  refine ⟨?_, ?_, ?_⟩
  · rw [fetchFleetData_sources, fetchFleetData_aircraft]
    by_cases hm2e : ((fusionPhase2 cfg adsbFetch
        (fusionPhaseLocal cfg localResp icaos).1
        (fusionPhaseLocal cfg localResp icaos).2.2).2.2).isEmpty = true
    · rw [if_pos hm2e, if_pos hm2e, List.length_map]
      simp only
      omega
    · rw [if_neg hm2e, if_neg hm2e, List.length_map]
      have h3 := phase3_length
        (fusionPhase2 cfg adsbFetch (fusionPhaseLocal cfg localResp icaos).1
          (fusionPhaseLocal cfg localResp icaos).2.2).1
        (openskyFetch (fusionPhase2 cfg adsbFetch
          (fusionPhaseLocal cfg localResp icaos).1
          (fusionPhaseLocal cfg localResp icaos).2.2).2.2)
        (hosky _).2
        (fun a ha hc => hkr2 a.icao24 hc
          ((hosky _).1 (List.mem_map_of_mem _ ha)))
      simp only
      omega
  · intro y hy hc
    exact hkr1 y hc ((hadsb _).1 hy)
  · intro y hy hc
    exact hkr2 y hc ((hosky _).1 hy)

/-- C7 counterexample: with the identifier listed twice in the request,
local and adsb.lol each count it as resolved (`sources = ⟨1, 1, 0⟩`), but
the snapshot holds a single record — the counts sum to 2, not 1, and the
identifier is counted by two different sources. -/
theorem c7_counterexample :
    (fetchFleetData ⟨true, true⟩ [c2Local] (fun _ => [c2Adsb])
        (fun _ => {}) [c1Icao, c1Icao]).sources = ⟨1, 1, 0⟩ ∧
    ((fetchFleetData ⟨true, true⟩ [c2Local] (fun _ => [c2Adsb])
        (fun _ => {}) [c1Icao, c1Icao]).aircraft).length = 1 ∧
    1 + 1 + 0 ≠ 1 :=
  ⟨rfl, rfl, by decide⟩

/-- Witness for `c7_counts_match` at a concrete duplicate-free call. -/
theorem c7_counts_match_witness :
    (fetchFleetData ⟨true, true⟩ [c2Local] (fun _ => []) (fun _ => {})
        [c1Icao]).sources.localSrc +
      (fetchFleetData ⟨true, true⟩ [c2Local] (fun _ => []) (fun _ => {})
        [c1Icao]).sources.adsbLol +
      (fetchFleetData ⟨true, true⟩ [c2Local] (fun _ => []) (fun _ => {})
        [c1Icao]).sources.opensky =
      ((fetchFleetData ⟨true, true⟩ [c2Local] (fun _ => []) (fun _ => {})
        [c1Icao]).aircraft).length :=
  (c7_counts_match ⟨true, true⟩ [c2Local] (fun _ => []) (fun _ => {})
    [c1Icao] (by decide) (by decide)
    (fun l => ⟨by simp [icaosOf], by simp [icaosOf]⟩)
    (fun l => ⟨by simp [icaosOf], by simp [icaosOf]⟩)).1

/-! ## C8: fallback-source errors surfaced with partial data -/

/-- C8: when the OpenSky fallback is queried (identifiers still missing)
and its HTTP response is a 429, `fetchFleetStates` maps it to the
distinguished rate-limit descriptor carrying the retry-after header, and
`fetchFleetData` returns that descriptor together with all records
already resolved by the higher-priority sources and the per-source
counts — nothing already resolved is discarded, and the fetch returns
normally (no exception). -/
theorem c8_rate_limited_fallback (cfg : FusionConfig)
    (localResp : List AircraftData)
    (adsbFetch : List String → List AircraftData) (h : OskyHttp)
    (hst : h.status = 429) (icaos : List String)
    (hmiss : ((fusionPhase2 cfg adsbFetch
        (fusionPhaseLocal cfg localResp icaos).1
        (fusionPhaseLocal cfg localResp icaos).2.2).2.2).isEmpty = false) :
    fetchFleetStates (.ok h) =
      { error := some (.rate_limit h.retryAfterHeader) } ∧
    fetchFleetData cfg localResp adsbFetch
        (fun _ => fetchFleetStates (.ok h)) icaos =
      { aircraft := ((fusionPhase2 cfg adsbFetch
            (fusionPhaseLocal cfg localResp icaos).1
            (fusionPhaseLocal cfg localResp icaos).2.2).1).map (·.2),
        sources := ⟨(fusionPhaseLocal cfg localResp icaos).2.1,
          (fusionPhase2 cfg adsbFetch (fusionPhaseLocal cfg localResp icaos).1
            (fusionPhaseLocal cfg localResp icaos).2.2).2.1, 0⟩,
        error := some (.rate_limit h.retryAfterHeader) } := by
  have hfs : fetchFleetStates (.ok h) =
      { error := some (.rate_limit h.retryAfterHeader) } := by
    simp only [fetchFleetStates]
    rw [if_pos hst]
  refine ⟨hfs, ?_⟩
  unfold fetchFleetData
  dsimp only
  rw [if_neg (by rw [hmiss]; exact Bool.false_ne_true), hfs]
  simp [fusionPhase3]

def c8Http : OskyHttp := { status := 429, retryAfterHeader := some 60 }

/-- Witness for `c8_rate_limited_fallback` at a concrete call where no
higher-priority source is enabled. -/
theorem c8_rate_limited_fallback_witness :
    fetchFleetStates (.ok c8Http) =
      { error := some (.rate_limit (some 60)) } ∧
    fetchFleetData ⟨false, false⟩ [] (fun _ => [])
        (fun _ => fetchFleetStates (.ok c8Http)) [c1Icao] =
      { aircraft := [], sources := ⟨0, 0, 0⟩,
        error := some (.rate_limit (some 60)) } := by
  obtain ⟨h1, h2⟩ := c8_rate_limited_fallback ⟨false, false⟩ []
    (fun _ => []) c8Http rfl [c1Icao] rfl
  exact ⟨h1, h2.trans (by decide)⟩

/-! ## C6: idempotence of a repeated record -/

/-- The number of closed flights in a list of flight rows. -/
def closedOf (l : List Flight) : ℕ :=
  (l.filter (fun f => f.landing_time.isSome)).length

/-- The number of closed flights in the store. -/
def closedCount (s : TrackerState) : ℕ := closedOf s.flights

/-- The id, the accumulated distance (`distance_km || 0`) and the stored
maximum altitude of a flights row. -/
def projDM (f : Flight) : ℕ × ℝ × Option ℚ :=
  (f.id, f.distance_km.getD 0, f.max_altitude)

theorem foldl_pickLatest_mem (l : List Flight) :
    ∀ (acc : Option Flight) (f : Flight),
      l.foldl pickLatest acc = some f → f ∈ l ∨ acc = some f := by
  induction l with
  | nil => exact fun acc f h => Or.inr h
  | cons a as ih =>
      intro acc f h
      rcases ih (pickLatest acc a) f h with h' | h'
      · exact Or.inl (List.mem_cons_of_mem a h')
      · cases acc with
        | none =>
            have ha : some a = some f := h'
            injection ha with ha
            exact Or.inl (List.mem_cons.mpr (Or.inl ha.symm))
        | some g =>
            have hg : (if g.takeoff_time ≤ a.takeoff_time then some a
                else some g) = some f := h'
            by_cases hle : g.takeoff_time ≤ a.takeoff_time
            · rw [if_pos hle] at hg
              injection hg with hg
              exact Or.inl (List.mem_cons.mpr (Or.inl hg.symm))
            · rw [if_neg hle] at hg
              exact Or.inr hg

theorem foldl_pickLatest_isSome (l : List Flight) :
    ∀ acc : Option Flight, acc.isSome →
      (l.foldl pickLatest acc).isSome := by
  induction l with
  | nil => exact fun acc h => h
  | cons a as ih =>
      intro acc hacc
      refine ih (pickLatest acc a) ?_
      cases acc with
      | none => rfl
      | some g =>
          show (if g.takeoff_time ≤ a.takeoff_time then some a
              else some g).isSome = true
          by_cases hle : g.takeoff_time ≤ a.takeoff_time
          · rw [if_pos hle]
            rfl
          · rw [if_neg hle]
            rfl

theorem getActiveFlight_mem (s : TrackerState) (v : String) (f : Flight)
    (h : getActiveFlight s v = some f) : f ∈ openFlights s v := by
  rcases foldl_pickLatest_mem (openFlights s v) none f h with h' | h'
  · exact h'
  · cases h'

theorem getActiveFlight_none_iff (s : TrackerState) (v : String) :
    getActiveFlight s v = none ↔ openFlights s v = [] := by
  constructor
  · intro h
    cases hop : openFlights s v with
    | nil => rfl
    | cons a as =>
        exfalso
        have : ((a :: as).foldl pickLatest none).isSome := by
          rw [show (a :: as).foldl pickLatest none
              = as.foldl pickLatest (some a) from rfl]
          exact foldl_pickLatest_isSome as (some a) rfl
        rw [← hop] at this
        unfold getActiveFlight at h
        rw [h] at this
        cases this
  · intro h
    unfold getActiveFlight
    rw [h]
    rfl

theorem foldl_pickLatest_last (l : List Flight) (F : Flight)
    (h : ∀ g ∈ l, g.takeoff_time ≤ F.takeoff_time) :
    (l ++ [F]).foldl pickLatest none = some F := by
  rw [List.foldl_append]
  cases hacc : l.foldl pickLatest none with
  | none => rfl
  | some g =>
      have hg : g ∈ l := by
        rcases foldl_pickLatest_mem l none g hacc with h' | h'
        · exact h'
        · cases h'
      show pickLatest (some g) F = some F
      have hdef : pickLatest (some g) F =
          if g.takeoff_time ≤ F.takeoff_time then some F else some g := rfl
      rw [hdef, if_pos (h g hg)]

theorem flight_id_unique (l : List Flight)
    (hnodup : (l.map (·.id)).Nodup) :
    ∀ f ∈ l, ∀ g ∈ l, f.id = g.id → f = g := by
  induction l with
  | nil => intro f hf; cases hf
  | cons a as ih =>
      simp only [List.map_cons, List.nodup_cons] at hnodup
      intro f hf g hg heq
      rcases List.mem_cons.mp hf with hf | hf
      · rcases List.mem_cons.mp hg with hg | hg
        · rw [hf, hg]
        · exfalso
          exact hnodup.1 (by rw [← hf, heq]; exact List.mem_map_of_mem _ hg)
      · rcases List.mem_cons.mp hg with hg | hg
        · exfalso
          exact hnodup.1 (by rw [← hg, ← heq]; exact List.mem_map_of_mem _ hf)
        · exact ih hnodup.2 f hf g hg heq

theorem alGet_eq_none_of_keys {α : Type} (l : List (String × α)) (k : String)
    (h : ∀ p ∈ l, p.1 ≠ k) : alGet l k = none := by
  induction l with
  | nil => rfl
  | cons p l ih =>
      rw [alGet, if_neg (by simpa using h p (List.mem_cons_self p l))]
      exact ih (fun q hq => h q (List.mem_cons_of_mem p hq))

theorem alGet_alDelete_self {α : Type} (l : List (String × α)) (k : String)
    (hnd : (l.map (·.1)).Nodup) : alGet (alDelete l k) k = none := by
  induction l with
  | nil => rfl
  | cons p l ih =>
      simp only [List.map_cons, List.nodup_cons] at hnd
      by_cases hp : (p.1 == k) = true
      · rw [alDelete, if_pos hp]
        refine alGet_eq_none_of_keys l k ?_
        intro q hq hc
        have hpk : p.1 = k := by simpa using hp
        exact hnd.1 (by rw [hpk, ← hc]; exact List.mem_map_of_mem _ hq)
      · rw [alDelete, if_neg hp, alGet, if_neg hp]
        exact ih hnd.2

/-- Closed-flight counts agree whenever the `(id, landing_time)`
projections of two flights tables agree. -/
theorem closedOf_eq_of_map_eq (l1 l2 : List Flight)
    (h : l1.map (fun f => (f.id, f.landing_time)) =
      l2.map (fun f => (f.id, f.landing_time))) :
    closedOf l1 = closedOf l2 := by
  induction l1 generalizing l2 with
  | nil =>
      cases l2 with
      | nil => rfl
      | cons b bs => simp at h
  | cons a as ih =>
      cases l2 with
      | nil => simp at h
      | cons b bs =>
          simp only [List.map_cons, List.cons.injEq, Prod.mk.injEq] at h
          have hih := ih bs h.2
          unfold closedOf at hih ⊢
          rw [List.filter_cons, List.filter_cons, h.1.2]
          split
          · simp only [List.length_cons]
            omega
          · exact hih

theorem closedOf_append_open (l : List Flight) (F : Flight)
    (hF : F.landing_time = none) : closedOf (l ++ [F]) = closedOf l := by
  unfold closedOf
  rw [List.filter_append]
  simp [List.filter_cons, hF]

/-- The `GoodState` invariants under which the state machine's feed is
well behaved for a vehicle: Postgres SERIAL ids are positive, fresh and
unique; the Active-Flight Index is a `Map` (unique keys) kept in lockstep
with the store (§4.5: a held id is the store's open flight); a vehicle
with no persisted row has no open flight and no index entry; the vehicle
has at most one open flight; observations arrive in non-decreasing
timestamp order (§5). -/
structure GoodState (r : AircraftData) (s : TrackerState) : Prop where
  nextId_pos : 1 ≤ s.nextId
  ids_bound : ∀ f ∈ s.flights, 1 ≤ f.id ∧ f.id < s.nextId
  ids_nodup : (s.flights.map (·.id)).Nodup
  index_keys_nodup : (s.activeFlights.map (·.1)).Nodup
  index_coherent : ∀ fid, alGet s.activeFlights r.icao24 = some fid →
    ∃ f, getActiveFlight s r.icao24 = some f ∧ f.id = fid
  first_obs_clean : alGet s.currentState r.icao24 = none →
    alGet s.activeFlights r.icao24 = none ∧
    getActiveFlight s r.icao24 = none
  open_unique : (openFlights s r.icao24).length ≤ 1
  open_time_le : ∀ f ∈ openFlights s r.icao24,
    f.takeoff_time ≤ r.lastContact

theorem applyUpdate_landing_some (f : Flight) (u : FlightUpdate) (t : ℤ)
    (hu : u.landingTime = some t) : (applyUpdate f u).landing_time = some t := by
  simp [applyUpdate, hu]

theorem applyUpdate_icao24 (f : Flight) (u : FlightUpdate) :
    (applyUpdate f u).icao24 = f.icao24 := rfl

theorem applyUpdate_empty (f : Flight) : applyUpdate f {} = f := rfl

theorem map_update_noop (l : List Flight) (fid : ℕ) (u : FlightUpdate)
    (h : ∀ g ∈ l, g.id ≠ fid) :
    l.map (fun g => if g.id = fid then applyUpdate g u else g) = l := by
  have hcong : ∀ g ∈ l,
      (if g.id = fid then applyUpdate g u else g) = id g :=
    fun g hg => if_neg (h g hg)
  rw [List.map_congr_left hcong, List.map_id]

theorem openFilter_update_close (l : List Flight) (v : String) (fid : ℕ)
    (u : FlightUpdate) (t : ℤ) (hu : u.landingTime = some t) (f0 : Flight)
    (hopens : l.filter (fun f => f.icao24 == v && f.landing_time.isNone) =
      [f0]) (hid : f0.id = fid) :
    (l.map (fun g => if g.id = fid then applyUpdate g u else g)).filter
      (fun f => f.icao24 == v && f.landing_time.isNone) = [] := by
  rw [List.filter_eq_nil_iff]
  intro g' hg'
  rcases List.mem_map.mp hg' with ⟨g, hg, rfl⟩
  by_cases hgid : g.id = fid
  · rw [if_pos hgid]
    simp [applyUpdate_landing_some _ _ _ hu]
  · rw [if_neg hgid]
    intro hpass
    have hmem : g ∈ l.filter (fun f => f.icao24 == v && f.landing_time.isNone) :=
      List.mem_filter.mpr ⟨hg, hpass⟩
    rw [hopens] at hmem
    exact hgid (by rw [List.mem_singleton.mp hmem, hid])

theorem openFilter_update_keep (l : List Flight) (v : String) (fid : ℕ)
    (u : FlightUpdate) (hu : u.landingTime = none)
    (hnodup : (l.map (·.id)).Nodup) (f0 : Flight)
    (hopens : l.filter (fun f => f.icao24 == v && f.landing_time.isNone) =
      [f0]) (hid : f0.id = fid) :
    (l.map (fun g => if g.id = fid then applyUpdate g u else g)).filter
      (fun f => f.icao24 == v && f.landing_time.isNone) =
      [applyUpdate f0 u] := by
  induction l with
  | nil => simp at hopens
  | cons a as ih =>
      simp only [List.map_cons, List.nodup_cons] at hnodup
      rw [List.filter_cons] at hopens
      rw [List.map_cons, List.filter_cons]
      by_cases hpa : (a.icao24 == v && a.landing_time.isNone) = true
      · rw [if_pos hpa] at hopens
        obtain ⟨ha, htail⟩ := List.cons.injEq _ _ _ _ ▸ hopens
        have hafid : a.id = fid := by rw [ha, hid]
        rw [if_pos hafid]
        have hpass' : ((applyUpdate a u).icao24 == v &&
            ((applyUpdate a u).landing_time).isNone) = true := by
          rw [applyUpdate_icao24, applyUpdate_landing_time _ _ hu]
          exact hpa
        rw [if_pos hpass']
        have hmap : as.map
            (fun g => if g.id = fid then applyUpdate g u else g) = as := by
          refine map_update_noop as fid u ?_
          intro g hg hc
          exact hnodup.1 (by rw [hafid, ← hc]; exact List.mem_map_of_mem _ hg)
        rw [hmap, htail, ha]
      · rw [if_neg hpa] at hopens
        have hf0as : f0 ∈ as :=
          List.mem_of_mem_filter (by rw [hopens]; exact List.mem_singleton_self f0)
        have haid : ¬ a.id = fid := by
          intro hc
          exact hnodup.1 (by rw [hc, ← hid]; exact List.mem_map_of_mem _ hf0as)
        rw [if_neg haid, if_neg hpa]
        exact ih hnodup.2 hopens

/-- Updating one flight with an update object that leaves max altitude
absent and either leaves distance absent or rewrites it to its current
accumulated value preserves every row's `projDM` projection. -/
theorem map_update_projDM_pres (l : List Flight) (f0 : Flight)
    (U : FlightUpdate) (hnodup : (l.map (·.id)).Nodup) (hf0 : f0 ∈ l)
    (hmax : U.maxAltitude = none)
    (hdist : U.distanceKm = none ∨
      ∃ d, U.distanceKm = some d ∧ d = f0.distance_km.getD 0) :
    (l.map (fun g => if g.id = f0.id then applyUpdate g U else g)).map
      projDM = l.map projDM := by
  rw [List.map_map]
  refine List.map_congr_left ?_
  intro g hg
  show projDM (if g.id = f0.id then applyUpdate g U else g) = projDM g
  by_cases hgid : g.id = f0.id
  · have hgf0 : g = f0 := flight_id_unique l hnodup g hg f0 hf0 hgid
    rw [hgf0, if_pos rfl]
    rcases hdist with hd | ⟨d, hd, hdeq⟩
    · simp [projDM, applyUpdate, hmax, hd]
    · simp [projDM, applyUpdate, hmax, hd, hdeq]
  · rw [if_neg hgid]

/-- Feeding `updateOngoingFlight` a record identical to the persisted
previous state (so the previous row is `csRowOf r`) leaves every flight's
id, accumulated distance value and stored maximum altitude unchanged,
provided the index is coherent with the store, flight ids are unique, and
the open flight's stored maximum already dominates the record's altitude
whenever the airborne branch can fire. -/
theorem updateOngoingFlight_selfprev (v : String) (r : AircraftData)
    (t : TrackerState) (hnodup : (t.flights.map (·.id)).Nodup)
    (hmap : ∀ fid, alGet t.activeFlights v = some fid →
      ∃ f, getActiveFlight t v = some f ∧ f.id = fid)
    (hmaxg : truthyB r.onGround = false →
      ∀ f, getActiveFlight t v = some f → truthyQ r.altitude = true →
      truthyQ f.max_altitude = true ∧
        r.altitude.getD 0 ≤ f.max_altitude.getD 0) :
    ((updateOngoingFlight v r (csRowOf r) t).1).flights.map projDM =
      t.flights.map projDM := by
  by_cases hog : truthyB r.onGround = true
  · simp only [updateOngoingFlight, hog]
    simp only [Bool.not_true, Bool.and_false, Bool.false_eq_true, if_false]
    rw [(resolveActiveFlightId_snd v t).1]
  · have hogf : truthyB r.onGround = false := by
      cases hb : truthyB r.onGround
      · rfl
      · exact absurd hb hog
    by_cases htr : truthyN (alGet t.activeFlights v) = true
    · obtain ⟨fid, hfid⟩ : ∃ fid, alGet t.activeFlights v = some fid := by
        cases hh : alGet t.activeFlights v with
        | none => rw [hh] at htr; exact absurd htr (by simp [truthyN])
        | some k => exact ⟨k, rfl⟩
      obtain ⟨f0, hget0, hid0⟩ := hmap fid hfid
      have hf0mem : f0 ∈ t.flights :=
        List.mem_of_mem_filter (getActiveFlight_mem t v f0 hget0)
      have htr' : truthyN (some fid) = true := by rw [← hfid]; exact htr
      have hres : resolveActiveFlightId v t = (some fid, t) := by
        unfold resolveActiveFlightId
        rw [hfid, if_pos htr']
      simp only [updateOngoingFlight, hres]
      have hguard : (truthyN (some fid) && !truthyB r.onGround) = true := by
        rw [htr', hogf]
        rfl
      rw [if_pos hguard]
      simp only [hget0, Option.getD_some, csRowOf]
      rw [← hid0]
      have hu1 : (if truthyQ r.altitude && (!truthyQ f0.max_altitude ||
          decide (r.altitude.getD 0 > f0.max_altitude.getD 0)) then
          ({ maxAltitude := r.altitude } : FlightUpdate) else {}) = {} := by
        by_cases hta : truthyQ r.altitude = true
        · obtain ⟨h1, h2⟩ := hmaxg hogf f0 hget0 hta
          rw [if_neg]
          rw [hta, h1]
          simp only [Bool.true_and, Bool.not_true, Bool.false_or,
            decide_eq_true_eq, not_lt]
          exact h2
        · have hta' : truthyQ r.altitude = false := by
            cases hb : truthyQ r.altitude
            · rfl
            · exact absurd hb hta
          rw [if_neg]
          rw [hta']
          simp
      rw [hu1]
      refine map_update_projDM_pres t.flights f0 _ hnodup hf0mem ?_ ?_
      · split <;> rfl
      · split
        · refine Or.inr ⟨_, rfl, ?_⟩
          rw [calculateDistance_self, add_zero]
        · exact Or.inl rfl
    · have htrf : truthyN (alGet t.activeFlights v) = false := by
        cases hb : truthyN (alGet t.activeFlights v)
        · rfl
        · exact absurd hb htr
      cases hga : getActiveFlight t v with
      | none =>
          have hres : resolveActiveFlightId v t =
              (alGet t.activeFlights v, t) := by
            unfold resolveActiveFlightId
            rw [if_neg htr, hga]
          simp only [updateOngoingFlight, hres]
          rw [if_neg (by rw [htrf]; simp)]
      | some f0 =>
          have hres : resolveActiveFlightId v t = (some f0.id,
              { t with activeFlights := alSet t.activeFlights v f0.id }) := by
            unfold resolveActiveFlightId
            rw [if_neg htr, hga]
          have hf0mem : f0 ∈ t.flights :=
            List.mem_of_mem_filter (getActiveFlight_mem t v f0 hga)
          simp only [updateOngoingFlight, hres]
          by_cases hzero : f0.id = 0
          · rw [if_neg (by rw [hzero]; simp [truthyN])]
          · have hguard : (truthyN (some f0.id) && !truthyB r.onGround) =
                true := by
              rw [hogf]
              simp [truthyN, hzero]
            rw [if_pos hguard]
            have hga' : getActiveFlight
                { t with activeFlights := alSet t.activeFlights v f0.id } v =
                some f0 := hga
            simp only [hga', Option.getD_some, csRowOf]
            have hu1 : (if truthyQ r.altitude && (!truthyQ f0.max_altitude ||
                decide (r.altitude.getD 0 > f0.max_altitude.getD 0)) then
                ({ maxAltitude := r.altitude } : FlightUpdate) else {}) = {} := by
              by_cases hta : truthyQ r.altitude = true
              · obtain ⟨h1, h2⟩ := hmaxg hogf f0 hga hta
                rw [if_neg]
                rw [hta, h1]
                simp only [Bool.true_and, Bool.not_true, Bool.false_or,
                  decide_eq_true_eq, not_lt]
                exact h2
              · have hta' : truthyQ r.altitude = false := by
                  cases hb : truthyQ r.altitude
                  · rfl
                  · exact absurd hb hta
                rw [if_neg]
                rw [hta']
                simp
            rw [hu1]
            refine map_update_projDM_pres t.flights f0 _ hnodup hf0mem ?_ ?_
            · split <;> rfl
            · split
              · refine Or.inr ⟨_, rfl, ?_⟩
                rw [calculateDistance_self, add_zero]
              · exact Or.inl rfl

/-- A record whose persisted previous state is its own row triggers no
transition. -/
theorem detectStateChange_self (r : AircraftData) :
    detectStateChange r (csRowOf r) = none := by
  unfold detectStateChange csRowOf
  rcases hog : r.onGround with _ | b
  · simp [hog]
  · cases b <;> simp [hog, truthyB, qTruthyGT, qKnownLT]

/-- The second feed of an identical record: with the previous row equal
to the record's own row, a coherent index, unique flight ids and a
dominating stored maximum altitude, the feed opens nothing, closes
nothing, and preserves every flight's accumulated distance and maximum
altitude. -/
theorem c6_feed2 (r : AircraftData) (s1 s2 : TrackerState)
    (hgate : ¬(r.latitude = none ∨ r.longitude = none))
    (hprev : alGet s1.currentState r.icao24 = some (csRowOf r))
    (hnodup : (s1.flights.map (·.id)).Nodup)
    (hmap : ∀ fid, alGet s1.activeFlights r.icao24 = some fid →
      ∃ f, getActiveFlight s1 r.icao24 = some f ∧ f.id = fid)
    (hmaxg : truthyB r.onGround = false →
      ∀ f, getActiveFlight s1 r.icao24 = some f →
      truthyQ r.altitude = true → truthyQ f.max_altitude = true ∧
        r.altitude.getD 0 ≤ f.max_altitude.getD 0)
    (h2 : processAircraftState r s1 = (s2, false)) :
    s2.nextId = s1.nextId ∧ closedCount s2 = closedCount s1 ∧
    s2.flights.map projDM = s1.flights.map projDM := by
  have hstep : processAircraftState r s1 =
      updateOngoingFlight r.icao24 r (csRowOf r)
        { s1 with
          positions := s1.positions ++ [posRowOf r],
          currentState := alSet s1.currentState r.icao24 (csRowOf r) } := by
    simp only [processAircraftState, if_neg hgate, hprev,
      detectStateChange_self]
  rw [hstep] at h2
  have hres : (updateOngoingFlight r.icao24 r (csRowOf r)
      { s1 with
        positions := s1.positions ++ [posRowOf r],
        currentState := alSet s1.currentState r.icao24 (csRowOf r) }).1 =
      s2 := by
    rw [h2]
  refine ⟨?_, ?_, ?_⟩
  · rw [← hres]
    exact (updateOngoingFlight_pres r.icao24 r (csRowOf r) _).1
  · rw [← hres]
    exact closedOf_eq_of_map_eq _ _
      ((updateOngoingFlight_pres r.icao24 r (csRowOf r) _).2.2.2.2)
  · rw [← hres]
    exact updateOngoingFlight_selfprev r.icao24 r _ hnodup hmap hmaxg

theorem list_singleton_of_length_le_one {α : Type} (l : List α) (a : α)
    (hlen : l.length ≤ 1) (ha : a ∈ l) : l = [a] := by
  cases l with
  | nil => cases ha
  | cons x t =>
      cases t with
      | nil =>
          rw [List.mem_singleton.mp ha]
      | cons y u => simp at hlen

theorem map_update_proj {β : Type} (l : List Flight) (fid : ℕ)
    (u : FlightUpdate) (proj : Flight → β)
    (h : ∀ f, proj (applyUpdate f u) = proj f) :
    ((l.map (fun g => if g.id = fid then applyUpdate g u else g)).map proj) =
      l.map proj := by
  rw [List.map_map]
  refine List.map_congr_left ?_
  intro g _
  show proj (if g.id = fid then applyUpdate g u else g) = proj g
  by_cases hgid : g.id = fid
  · rw [if_pos hgid, h g]
  · rw [if_neg hgid]

theorem closedOf_close (l : List Flight) (fid : ℕ) (u : FlightUpdate)
    (t : ℤ) (hu : u.landingTime = some t)
    (hnodup : (l.map (·.id)).Nodup) (f0 : Flight) (hf0 : f0 ∈ l)
    (hid : f0.id = fid) (hopen : f0.landing_time = none) :
    closedOf (l.map (fun g => if g.id = fid then applyUpdate g u else g)) =
      closedOf l + 1 := by
  induction l with
  | nil => cases hf0
  | cons a as ih =>
      simp only [List.map_cons, List.nodup_cons] at hnodup
      rcases List.mem_cons.mp hf0 with hf0a | hf0as
      · have haid : a.id = fid := by rw [← hf0a, hid]
        have haopen : a.landing_time = none := by rw [← hf0a, hopen]
        rw [List.map_cons, if_pos haid]
        have hmapas : as.map
            (fun g => if g.id = fid then applyUpdate g u else g) = as := by
          refine map_update_noop as fid u ?_
          intro g hg hc
          exact hnodup.1 (by rw [haid, ← hc]; exact List.mem_map_of_mem _ hg)
        rw [hmapas]
        unfold closedOf
        rw [List.filter_cons, List.filter_cons]
        rw [if_pos (by rw [applyUpdate_landing_some a u t hu]; rfl),
          if_neg (by rw [haopen]; simp)]
        simp
      · have haid : ¬ a.id = fid := by
          intro hc
          exact hnodup.1 (by rw [hc, ← hid]; exact List.mem_map_of_mem _ hf0as)
        rw [List.map_cons, if_neg haid]
        have hih := ih hnodup.2 hf0as
        unfold closedOf at hih ⊢
        rw [List.filter_cons, List.filter_cons]
        by_cases hpa : a.landing_time.isSome = true
        · rw [if_pos hpa, if_pos hpa]
          simp only [List.length_cons]
          omega
        · rw [if_neg hpa, if_neg hpa]
          omega

theorem filter_open_append_single (l : List Flight) (v : String) (F : Flight)
    (hic : F.icao24 = v) (hl : F.landing_time = none) :
    (l ++ [F]).filter (fun f => f.icao24 == v && f.landing_time.isNone) =
      l.filter (fun f => f.icao24 == v && f.landing_time.isNone) ++ [F] := by
  rw [List.filter_append]
  congr 1
  simp [List.filter_cons, hic, hl]

theorem nodup_ids_append_new (s : TrackerState) (F : Flight)
    (hgoodb : ∀ f ∈ s.flights, 1 ≤ f.id ∧ f.id < s.nextId)
    (hnodup : (s.flights.map (·.id)).Nodup) (hFid : F.id = s.nextId) :
    (((s.flights ++ [F]).map (·.id))).Nodup := by
  rw [List.map_append]
  refine List.nodup_append.mpr ⟨hnodup, by simp, ?_⟩
  intro a ha hb
  simp only [List.map_cons, List.map_nil, List.mem_singleton] at hb
  rcases List.mem_map.mp ha with ⟨f, hf, hfa⟩
  have := (hgoodb f hf).2
  rw [hfa, hb, hFid] at this
  exact absurd this (lt_irrefl _)

/-- The unconditional writes of a feed: the position-history append and
the last-known-state upsert, before any transition handling. -/
def writeState (r : AircraftData) (s : TrackerState) : TrackerState :=
  { s with
    positions := s.positions ++ [posRowOf r],
    currentState := alSet s.currentState r.icao24 (csRowOf r) }

/-- The flights row inserted by `db.createFlight` during a feed of `r`
on store `s`. -/
def newFlightOf (r : AircraftData) (s : TrackerState) : Flight :=
  { id := s.nextId, icao24 := r.icao24, takeoff_time := r.lastContact,
    takeoff_latitude := r.latitude, takeoff_longitude := r.longitude,
    max_altitude := r.altitude }

/-- The state after a feed of `r` that created a flight (first-obs
creation or a takeoff transition). -/
def createdState (r : AircraftData) (s : TrackerState) : TrackerState :=
  { flights := s.flights ++ [newFlightOf r s], nextId := s.nextId + 1,
    currentState := alSet s.currentState r.icao24 (csRowOf r),
    positions := s.positions ++ [posRowOf r],
    activeFlights := alSet s.activeFlights r.icao24 s.nextId,
    unmatchedLandings := s.unmatchedLandings }

/-- The state after a feed of `r` that touched no flights row: only the
two unconditional writes, a possible index write and a possible
unmatched-landing count. -/
def plainState (r : AircraftData) (s : TrackerState)
    (act : List (String × ℕ)) (um : ℕ) : TrackerState :=
  { flights := s.flights, nextId := s.nextId,
    currentState := alSet s.currentState r.icao24 (csRowOf r),
    positions := s.positions ++ [posRowOf r],
    activeFlights := act, unmatchedLandings := um }

/-- The state after a feed of `r` that updated the flights row `fid`
with the update object `U` (a landing close or an ongoing-flight
update). -/
def updatedState (r : AircraftData) (s : TrackerState) (fid : ℕ)
    (U : FlightUpdate) (act : List (String × ℕ)) (um : ℕ) : TrackerState :=
  { flights := s.flights.map
      (fun g => if g.id = fid then applyUpdate g U else g),
    nextId := s.nextId,
    currentState := alSet s.currentState r.icao24 (csRowOf r),
    positions := s.positions ++ [posRowOf r],
    activeFlights := act, unmatchedLandings := um }

/-- What one feed of `r` on a `GoodState` store `s` guarantees about its
result `s1`: the written previous row, the hypotheses of `c6_feed2`, and
the at-most-one-open / at-most-one-close bounds. -/
def c6Pack (r : AircraftData) (s s1 : TrackerState) : Prop :=
  alGet s1.currentState r.icao24 = some (csRowOf r) ∧
  ((s1.flights.map (·.id)).Nodup) ∧
  (∀ fid, alGet s1.activeFlights r.icao24 = some fid →
    ∃ f, getActiveFlight s1 r.icao24 = some f ∧ f.id = fid) ∧
  (truthyB r.onGround = false →
    ∀ f, getActiveFlight s1 r.icao24 = some f →
    truthyQ r.altitude = true → truthyQ f.max_altitude = true ∧
      r.altitude.getD 0 ≤ f.max_altitude.getD 0) ∧
  s1.nextId ≤ s.nextId + 1 ∧ closedCount s1 ≤ closedCount s + 1

/-- The max-altitude clause of the ongoing-flight update object: after
applying it, the stored maximum dominates the record's altitude. -/
theorem applyUpdate_ongoing_max (r : AircraftData) (f0 : Flight)
    (U1 U2 : FlightUpdate)
    (hU1 : U1 = if truthyQ r.altitude && (!truthyQ f0.max_altitude ||
        decide (r.altitude.getD 0 > f0.max_altitude.getD 0)) then
      ({ maxAltitude := r.altitude } : FlightUpdate) else {})
    (hU2 : U2.maxAltitude = U1.maxAltitude)
    (hta : truthyQ r.altitude = true) :
    truthyQ ((applyUpdate f0 U2).max_altitude) = true ∧
    r.altitude.getD 0 ≤ ((applyUpdate f0 U2).max_altitude).getD 0 := by
  have hmax : (applyUpdate f0 U2).max_altitude =
      match U2.maxAltitude with
      | some q => some q
      | none => f0.max_altitude := rfl
  by_cases hc : (truthyQ r.altitude && (!truthyQ f0.max_altitude ||
      decide (r.altitude.getD 0 > f0.max_altitude.getD 0))) = true
  · rw [if_pos hc] at hU1
    have hm2 : U2.maxAltitude = r.altitude := by rw [hU2, hU1]
    obtain ⟨a, ha⟩ : ∃ a, r.altitude = some a := by
      cases h : r.altitude with
      | none => rw [h] at hta; exact absurd hta (by simp [truthyQ])
      | some a => exact ⟨a, rfl⟩
    rw [hmax, hm2, ha]
    constructor
    · show truthyQ (some a) = true
      rw [← ha]
      exact hta
    · exact le_of_eq rfl
  · rw [if_neg hc] at hU1
    have hm2 : U2.maxAltitude = none := by rw [hU2, hU1]
    have hb : (!truthyQ f0.max_altitude ||
        decide (r.altitude.getD 0 > f0.max_altitude.getD 0)) = false := by
      cases hbb : (!truthyQ f0.max_altitude ||
          decide (r.altitude.getD 0 > f0.max_altitude.getD 0)) with
      | false => rfl
      | true => exact absurd (by rw [hta, hbb]; rfl) hc
    have hb1 : truthyQ f0.max_altitude = true := by
      cases hmb : truthyQ f0.max_altitude with
      | true => rfl
      | false => rw [hmb] at hb; exact absurd hb (by simp)
    have hb2 : ¬ (f0.max_altitude.getD 0 < r.altitude.getD 0) := by
      intro hlt
      rw [hb1] at hb
      simp only [Bool.not_true, Bool.false_or] at hb
      rw [decide_eq_false_iff_not] at hb
      exact hb hlt
    rw [hmax, hm2]
    exact ⟨hb1, not_lt.mp hb2⟩

/-- A feed that created a flight satisfies the pack. -/
theorem c6_pack_created (r : AircraftData) (s : TrackerState)
    (hgood : GoodState r s) : c6Pack r s (createdState r s) := by
  have hga : getActiveFlight (createdState r s) r.icao24 =
      some (newFlightOf r s) := by
    show ((s.flights ++ [newFlightOf r s]).filter
        (fun f => f.icao24 == r.icao24 && f.landing_time.isNone)).foldl
        pickLatest none = some (newFlightOf r s)
    rw [filter_open_append_single s.flights r.icao24 (newFlightOf r s) rfl rfl]
    exact foldl_pickLatest_last _ _ (fun g hg => hgood.open_time_le g hg)
  refine ⟨?_, ?_, ?_, ?_, ?_, ?_⟩
  · exact alGet_alSet_self s.currentState r.icao24 (csRowOf r)
  · exact nodup_ids_append_new s (newFlightOf r s) hgood.ids_bound
      hgood.ids_nodup rfl
  · intro fid h
    have h' : alGet (alSet s.activeFlights r.icao24 s.nextId) r.icao24 =
        some fid := h
    rw [alGet_alSet_self] at h'
    injection h' with h'
    exact ⟨newFlightOf r s, hga, h'⟩
  · intro hog f hf hta
    rw [hga] at hf
    injection hf with hf
    rw [← hf]
    exact ⟨hta, le_refl _⟩
  · exact le_refl _
  · show closedOf (s.flights ++ [newFlightOf r s]) ≤ closedOf s.flights + 1
    rw [closedOf_append_open s.flights (newFlightOf r s) rfl]
    exact Nat.le_succ _

/-- A feed that touched no flights row satisfies the pack, given the
index facts for its final map value. -/
theorem c6_pack_plainwrites (r : AircraftData) (s : TrackerState)
    (hgood : GoodState r s) (act : List (String × ℕ)) (um : ℕ)
    (hact : ∀ fid, alGet act r.icao24 = some fid →
      ∃ f, getActiveFlight s r.icao24 = some f ∧ f.id = fid)
    (hmaxg : truthyB r.onGround = false →
      ∀ f, getActiveFlight s r.icao24 = some f → truthyQ r.altitude = true →
      truthyQ f.max_altitude = true ∧
        r.altitude.getD 0 ≤ f.max_altitude.getD 0) :
    c6Pack r s (plainState r s act um) := by
  refine ⟨?_, ?_, ?_, ?_, ?_, ?_⟩
  · exact alGet_alSet_self s.currentState r.icao24 (csRowOf r)
  · exact hgood.ids_nodup
  · exact hact
  · exact hmaxg
  · exact Nat.le_succ _
  · exact Nat.le_succ _

/-- A feed that closed the vehicle's unique open flight satisfies the
pack, provided the final index holds nothing for the vehicle. -/
theorem c6_pack_closed (r : AircraftData) (s : TrackerState)
    (hgood : GoodState r s) (fid : ℕ) (U : FlightUpdate) (t : ℤ)
    (hU : U.landingTime = some t) (f0 : Flight)
    (hf0 : getActiveFlight s r.icao24 = some f0) (hid : f0.id = fid)
    (act : List (String × ℕ))
    (hactnone : alGet act r.icao24 = none) (um : ℕ) :
    c6Pack r s (updatedState r s fid U act um) := by
  have hf0open : f0 ∈ openFlights s r.icao24 :=
    getActiveFlight_mem s r.icao24 f0 hf0
  have hf0mem : f0 ∈ s.flights := List.mem_of_mem_filter hf0open
  have hopens : openFlights s r.icao24 = [f0] :=
    list_singleton_of_length_le_one _ f0 hgood.open_unique hf0open
  have hf0land : f0.landing_time = none := by
    have := (List.mem_filter.mp hf0open).2
    simp only [Bool.and_eq_true, Option.isNone_iff_eq_none] at this
    exact this.2
  refine ⟨?_, ?_, ?_, ?_, ?_, ?_⟩
  · exact alGet_alSet_self s.currentState r.icao24 (csRowOf r)
  · show ((s.flights.map
        (fun g => if g.id = fid then applyUpdate g U else g)).map (·.id)).Nodup
    rw [map_update_proj s.flights fid U (·.id) (fun f => applyUpdate_id f U)]
    exact hgood.ids_nodup
  · intro fid' h
    have h' : alGet act r.icao24 = some fid' := h
    rw [hactnone] at h'
    cases h'
  · intro hog f hf hta
    have hclosed : getActiveFlight (updatedState r s fid U act um) r.icao24 =
        none := by
      show ((s.flights.map
          (fun g => if g.id = fid then applyUpdate g U else g)).filter
          (fun f => f.icao24 == r.icao24 && f.landing_time.isNone)).foldl
          pickLatest none = none
      rw [openFilter_update_close s.flights r.icao24 fid U t hU f0 hopens hid]
      rfl
    rw [hclosed] at hf
    cases hf
  · exact Nat.le_succ _
  · show closedOf (s.flights.map
        (fun g => if g.id = fid then applyUpdate g U else g)) ≤
        closedOf s.flights + 1
    exact le_of_eq (closedOf_close s.flights fid U t hU hgood.ids_nodup f0
      hf0mem hid hf0land)

/-- A feed that updated the vehicle's unique open flight with a
landing-free update object satisfies the pack. -/
theorem c6_pack_updated (r : AircraftData) (s : TrackerState)
    (hgood : GoodState r s) (fid : ℕ) (f0 : Flight) (U : FlightUpdate)
    (hf0 : getActiveFlight s r.icao24 = some f0) (hid : f0.id = fid)
    (hU : U.landingTime = none)
    (hUmaxP : truthyQ r.altitude = true →
      truthyQ ((applyUpdate f0 U).max_altitude) = true ∧
      r.altitude.getD 0 ≤ ((applyUpdate f0 U).max_altitude).getD 0)
    (act : List (String × ℕ))
    (hact : ∀ fid', alGet act r.icao24 = some fid' → fid' = fid)
    (um : ℕ) :
    c6Pack r s (updatedState r s fid U act um) := by
  have hf0open : f0 ∈ openFlights s r.icao24 :=
    getActiveFlight_mem s r.icao24 f0 hf0
  have hopens : openFlights s r.icao24 = [f0] :=
    list_singleton_of_length_le_one _ f0 hgood.open_unique hf0open
  have hga : getActiveFlight (updatedState r s fid U act um) r.icao24 =
      some (applyUpdate f0 U) := by
    show ((s.flights.map
        (fun g => if g.id = fid then applyUpdate g U else g)).filter
        (fun f => f.icao24 == r.icao24 && f.landing_time.isNone)).foldl
        pickLatest none = some (applyUpdate f0 U)
    rw [openFilter_update_keep s.flights r.icao24 fid U hU hgood.ids_nodup
      f0 hopens hid]
    rfl
  refine ⟨?_, ?_, ?_, ?_, ?_, ?_⟩
  · exact alGet_alSet_self s.currentState r.icao24 (csRowOf r)
  · show ((s.flights.map
        (fun g => if g.id = fid then applyUpdate g U else g)).map (·.id)).Nodup
    rw [map_update_proj s.flights fid U (·.id) (fun f => applyUpdate_id f U)]
    exact hgood.ids_nodup
  · intro fid' h
    have h' : alGet act r.icao24 = some fid' := h
    refine ⟨applyUpdate f0 U, hga, ?_⟩
    rw [hact fid' h', applyUpdate_id, hid]
  · intro hog f hf hta
    rw [hga] at hf
    injection hf with hf
    rw [← hf]
    exact hUmaxP hta
  · exact Nat.le_succ _
  · show closedOf (s.flights.map
        (fun g => if g.id = fid then applyUpdate g U else g)) ≤
        closedOf s.flights + 1
    have heq : closedOf (s.flights.map
        (fun g => if g.id = fid then applyUpdate g U else g)) =
        closedOf s.flights :=
      closedOf_eq_of_map_eq _ _ (map_update_proj s.flights fid U
        (fun f => (f.id, f.landing_time))
        (fun f => by rw [Prod.mk.injEq]; exact ⟨applyUpdate_id f U,
          applyUpdate_landing_time f U hU⟩))
    rw [heq]
    exact Nat.le_succ _

/-- C6: under the documented store invariants (positive, fresh, unique
flight ids; the in-memory Active-Flight Index in lockstep with the
store; at most one open flight per vehicle; in-order timestamps),
feeding the identical record twice in a row opens at most one flight
(the second feed allocates no id), closes at most one flight (the
second feed closes none), and the repeat leaves every flight's
accumulated distance and stored maximum altitude unchanged — the only
candidate segment has zero length. -/
theorem c6_identical_record_idempotent (r : AircraftData)
    (s s1 s2 : TrackerState) (hgood : GoodState r s)
    (h1 : processAircraftState r s = (s1, false))
    (h2 : processAircraftState r s1 = (s2, false)) :
    s1.nextId ≤ s.nextId + 1 ∧ closedCount s1 ≤ closedCount s + 1 ∧
    s2.nextId = s1.nextId ∧ closedCount s2 = closedCount s1 ∧
    s2.flights.map projDM = s1.flights.map projDM := by
  by_cases hgate : r.latitude = none ∨ r.longitude = none
  · have e1 := (processAircraftState_reject r s hgate).symm.trans h1
    injection e1 with e1 _
    subst e1
    have e2 := (processAircraftState_reject r s hgate).symm.trans h2
    injection e2 with e2 _
    subst e2
    exact ⟨Nat.le_succ _, Nat.le_succ _, rfl, rfl, rfl⟩
  · have hpack : c6Pack r s s1 := by
      cases hprev : alGet s.currentState r.icao24 with
      | none =>
          obtain ⟨hmapnone, hganone⟩ := hgood.first_obs_clean hprev
          by_cases hcr : (!truthyB r.onGround && qTruthyGT r.altitude 50 &&
              qTruthyGT r.velocity 15) = true
          · simp only [processAircraftState, if_neg hgate, hprev,
              if_pos hcr] at h1
            injection h1 with hX _
            rw [← hX]
            exact c6_pack_created r s hgood
          · simp only [processAircraftState, if_neg hgate, hprev,
              if_neg hcr] at h1
            injection h1 with hX _
            rw [← hX]
            exact c6_pack_plainwrites r s hgood s.activeFlights
              s.unmatchedLandings
              (fun fid h => by rw [hmapnone] at h; cases h)
              (fun hog f hf => by rw [hganone] at hf; cases hf)
      | some p =>
          cases hdet : detectStateChange r p with
          | some ev =>
              cases ev with
              | takeoff =>
                  simp only [processAircraftState, if_neg hgate, hprev, hdet,
                    handleStateChange] at h1
                  injection h1 with hX _
                  rw [← hX]
                  exact c6_pack_created r s hgood
              | landing =>
                  have hstep0 : processAircraftState r s =
                      handleStateChange r.icao24 StateEvent.landing r p
                        (writeState r s) := by
                    simp only [processAircraftState, writeState,
                      if_neg hgate, hprev, hdet]
                  rw [hstep0] at h1
                  simp only [handleStateChange] at h1
                  cases hmapv : alGet s.activeFlights r.icao24 with
                  | some fid =>
                      obtain ⟨f0, hf0, hid0⟩ := hgood.index_coherent fid hmapv
                      have hf0mem : f0 ∈ s.flights :=
                        List.mem_of_mem_filter
                          (getActiveFlight_mem s r.icao24 f0 hf0)
                      have htr : truthyN (some fid) = true := by
                        have h1le : 1 ≤ fid := by
                          rw [← hid0]
                          exact (hgood.ids_bound f0 hf0mem).1
                        simp [truthyN]
                        omega
                      have hlf : landingFlightId r.icao24 (writeState r s) =
                          some fid := by
                        unfold landingFlightId
                        rw [show alGet (writeState r s).activeFlights
                          r.icao24 = some fid from hmapv, if_pos htr]
                      rw [hlf, if_pos htr] at h1
                      rw [show getActiveFlight (writeState r s) r.icao24 =
                        some f0 from hf0] at h1
                      simp only [Option.getD_some] at h1
                      injection h1 with hX _
                      rw [← hX]
                      refine c6_pack_closed r s hgood fid _ r.lastContact ?_
                        f0 hf0 hid0 (alDelete s.activeFlights r.icao24) ?_
                        s.unmatchedLandings
                      · rfl
                      · exact alGet_alDelete_self s.activeFlights r.icao24
                          hgood.index_keys_nodup
                  | none =>
                      cases hga : getActiveFlight s r.icao24 with
                      | some f0 =>
                          have hf0mem : f0 ∈ s.flights :=
                            List.mem_of_mem_filter
                              (getActiveFlight_mem s r.icao24 f0 hga)
                          have htr : truthyN (some f0.id) = true := by
                            have h1le := (hgood.ids_bound f0 hf0mem).1
                            simp [truthyN]
                            omega
                          have hlf : landingFlightId r.icao24
                              (writeState r s) = some f0.id := by
                            unfold landingFlightId
                            rw [show alGet (writeState r s).activeFlights
                              r.icao24 = none from hmapv]
                            rw [if_neg (by simp [truthyN])]
                            rw [show getActiveFlight (writeState r s)
                              r.icao24 = some f0 from hga]
                          rw [hlf, if_pos htr] at h1
                          rw [show getActiveFlight (writeState r s)
                            r.icao24 = some f0 from hga] at h1
                          simp only [Option.getD_some] at h1
                          injection h1 with hX _
                          rw [← hX]
                          refine c6_pack_closed r s hgood f0.id _
                            r.lastContact ?_ f0 hga rfl
                            (alDelete s.activeFlights r.icao24) ?_
                            s.unmatchedLandings
                          · rfl
                          · exact alGet_alDelete_self s.activeFlights
                              r.icao24 hgood.index_keys_nodup
                      | none =>
                          have hlf : landingFlightId r.icao24
                              (writeState r s) = none := by
                            unfold landingFlightId
                            rw [show alGet (writeState r s).activeFlights
                              r.icao24 = none from hmapv]
                            rw [if_neg (by simp [truthyN])]
                            rw [show getActiveFlight (writeState r s)
                              r.icao24 = none from hga]
                          rw [hlf] at h1
                          rw [if_neg (by simp [truthyN])] at h1
                          injection h1 with hX _
                          rw [← hX]
                          exact c6_pack_plainwrites r s hgood
                            s.activeFlights (s.unmatchedLandings + 1)
                            (fun fid h => by rw [hmapv] at h; cases h)
                            (fun hog f hf => by rw [hga] at hf; cases hf)
          | none =>
              have hstep0 : processAircraftState r s =
                  updateOngoingFlight r.icao24 r p (writeState r s) := by
                simp only [processAircraftState, writeState, if_neg hgate,
                  hprev, hdet]
              rw [hstep0] at h1
              cases hmapv : alGet s.activeFlights r.icao24 with
              | some fid =>
                  obtain ⟨f0, hf0, hid0⟩ := hgood.index_coherent fid hmapv
                  have hf0mem : f0 ∈ s.flights :=
                    List.mem_of_mem_filter
                      (getActiveFlight_mem s r.icao24 f0 hf0)
                  have htr : truthyN (some fid) = true := by
                    have h1le : 1 ≤ fid := by
                      rw [← hid0]
                      exact (hgood.ids_bound f0 hf0mem).1
                    simp [truthyN]
                    omega
                  have hres : resolveActiveFlightId r.icao24
                      (writeState r s) = (some fid, writeState r s) := by
                    unfold resolveActiveFlightId
                    rw [show alGet (writeState r s).activeFlights r.icao24 =
                      some fid from hmapv, if_pos htr]
                  simp only [updateOngoingFlight, hres] at h1
                  cases hog : truthyB r.onGround with
                  | true =>
                      rw [if_neg (by rw [hog]; simp)] at h1
                      injection h1 with hX _
                      rw [← hX]
                      exact c6_pack_plainwrites r s hgood s.activeFlights
                        s.unmatchedLandings
                        (fun fid' h => by
                          rw [hmapv] at h
                          injection h with he
                          exact ⟨f0, hf0, by rw [hid0, he]⟩)
                        (fun hog' => by rw [hog] at hog'; cases hog')
                  | false =>
                      have hguard : (truthyN (some fid) &&
                          !truthyB r.onGround) = true := by
                        rw [htr, hog]
                        rfl
                      rw [if_pos hguard] at h1
                      rw [show getActiveFlight (writeState r s) r.icao24 =
                        some f0 from hf0] at h1
                      simp only [Option.getD_some] at h1
                      injection h1 with hX _
                      rw [← hX]
                      refine c6_pack_updated r s hgood fid f0 _ hf0 hid0
                        ?_ ?_ s.activeFlights ?_ s.unmatchedLandings
                      · split <;> split <;> rfl
                      · exact fun hta => applyUpdate_ongoing_max r f0 _ _
                          rfl (by split <;> rfl) hta
                      · intro fid' h
                        rw [hmapv] at h
                        injection h with he
                        exact he.symm
              | none =>
                  have htrf : truthyN (alGet s.activeFlights r.icao24) =
                      false := by
                    rw [hmapv]
                    rfl
                  cases hga : getActiveFlight s r.icao24 with
                  | none =>
                      have hres : resolveActiveFlightId r.icao24
                          (writeState r s) =
                          (alGet (writeState r s).activeFlights r.icao24,
                            writeState r s) := by
                        unfold resolveActiveFlightId
                        rw [if_neg (by
                          rw [show truthyN (alGet (writeState r
                            s).activeFlights r.icao24) = false from htrf]
                          simp)]
                        rw [show getActiveFlight (writeState r s) r.icao24 =
                          none from hga]
                      simp only [updateOngoingFlight, hres] at h1
                      rw [if_neg (by
                        rw [show truthyN (alGet (writeState r
                          s).activeFlights r.icao24) = false from htrf]
                        simp)] at h1
                      injection h1 with hX _
                      rw [← hX]
                      exact c6_pack_plainwrites r s hgood s.activeFlights
                        s.unmatchedLandings
                        (fun fid h => by
                          obtain ⟨f, hf, _⟩ := hgood.index_coherent fid h
                          rw [hga] at hf
                          cases hf)
                        (fun hog f hf => by rw [hga] at hf; cases hf)
                  | some f0 =>
                      have hf0mem : f0 ∈ s.flights :=
                        List.mem_of_mem_filter
                          (getActiveFlight_mem s r.icao24 f0 hga)
                      have htr0 : truthyN (some f0.id) = true := by
                        have h1le := (hgood.ids_bound f0 hf0mem).1
                        simp [truthyN]
                        omega
                      have hres : resolveActiveFlightId r.icao24
                          (writeState r s) =
                          (some f0.id,
                            { writeState r s with
                              activeFlights := alSet
                                (writeState r s).activeFlights r.icao24
                                f0.id }) := by
                        unfold resolveActiveFlightId
                        rw [if_neg (by
                          rw [show truthyN (alGet (writeState r
                            s).activeFlights r.icao24) = false from htrf]
                          simp)]
                        rw [show getActiveFlight (writeState r s) r.icao24 =
                          some f0 from hga]
                      simp only [updateOngoingFlight, hres] at h1
                      cases hog : truthyB r.onGround with
                      | true =>
                          rw [if_neg (by rw [hog]; simp)] at h1
                          injection h1 with hX _
                          rw [← hX]
                          exact c6_pack_plainwrites r s hgood
                            (alSet s.activeFlights r.icao24 f0.id)
                            s.unmatchedLandings
                            (fun fid' h => by
                              rw [alGet_alSet_self] at h
                              injection h with he
                              exact ⟨f0, hga, he⟩)
                            (fun hog' => by rw [hog] at hog'; cases hog')
                      | false =>
                          have hguard : (truthyN (some f0.id) &&
                              !truthyB r.onGround) = true := by
                            rw [htr0, hog]
                            rfl
                          rw [if_pos hguard] at h1
                          rw [show getActiveFlight
                            { writeState r s with
                              activeFlights := alSet
                                (writeState r s).activeFlights r.icao24
                                f0.id } r.icao24 = some f0 from hga] at h1
                          simp only [Option.getD_some] at h1
                          injection h1 with hX _
                          rw [← hX]
                          refine c6_pack_updated r s hgood f0.id f0 _ hga
                            rfl ?_ ?_
                            (alSet s.activeFlights r.icao24 f0.id) ?_
                            s.unmatchedLandings
                          · split <;> split <;> rfl
                          · exact fun hta => applyUpdate_ongoing_max r f0
                              _ _ rfl (by split <;> rfl) hta
                          · intro fid' h
                            rw [alGet_alSet_self] at h
                            injection h with he
                            exact he.symm
    obtain ⟨hprev1, hnd1, hmap1, hmaxg1, hP1, hP2⟩ := hpack
    obtain ⟨hA, hB, hC⟩ := c6_feed2 r s1 s2 hgate hprev1 hnd1 hmap1
      hmaxg1 h2
    exact ⟨hP1, hP2, hA, hB, hC⟩

def c6Icao : String := "ab1234"

/-- A concrete record for the C6 witness: a vehicle observed on the
ground, fed twice from the empty store. -/
def c6Rec : AircraftData :=
  { icao24 := c6Icao, lastContact := 1000, longitude := some 8,
    latitude := some 47, altitude := some 100, onGround := some true,
    velocity := some 3 }

/-- The state after the first feed of `c6Rec` on the empty store: the
two unconditional writes only. -/
def c6S1 : TrackerState :=
  { positions := [posRowOf c6Rec],
    currentState := [(c6Icao, csRowOf c6Rec)] }

/-- The state after the second, identical feed. -/
def c6S2 : TrackerState :=
  { positions := [posRowOf c6Rec, posRowOf c6Rec],
    currentState := [(c6Icao, csRowOf c6Rec)] }

theorem c6_identical_record_idempotent_witness :
    c6S1.nextId ≤ initialState.nextId + 1 ∧
    closedCount c6S1 ≤ closedCount initialState + 1 ∧
    c6S2.nextId = c6S1.nextId ∧ closedCount c6S2 = closedCount c6S1 ∧
    c6S2.flights.map projDM = c6S1.flights.map projDM :=
  c6_identical_record_idempotent c6Rec initialState c6S1 c6S2
    ⟨le_refl 1,
     fun f hf => absurd hf (List.not_mem_nil f),
     List.nodup_nil,
     List.nodup_nil,
     fun fid h => Option.noConfusion h,
     fun _ => ⟨rfl, rfl⟩,
     Nat.zero_le 1,
     fun f hf => absurd hf (List.not_mem_nil f)⟩
    (by rfl) (by rfl)

end FleetTracker
